import Mathlib

/-!
Verification of the enrollment/learner query service of the
`edx-enterprise-data` repository (api v0 and v1 view layer).

The definitions below are a shallow embedding of the Python source in
`enterprise_data/api/v1/views.py` and `enterprise_data/api/v0/views.py`:
Django querysets become Lean lists, queryset `.filter(...)` calls become
`List.filter` with the corresponding decidable predicate, `datetime`
instants become `Int`, and `datetime.date` values become the `Date`
structure below (proleptic Gregorian calendar).  Functions whose source
lives outside the embedded files (the cache key helper and the consent
filter backend) are modelled from the specification and marked as such
in their doc comments.
-/

/-- Calendar date (proleptic Gregorian), the embedding of Python
`datetime.date`.  The structure itself carries an unconstrained year; the
range Python can represent (`MINYEAR = 1` to `MAXYEAR = 9999`) is captured
by `Date.Representable` below, which the date theorems quantify over, and
crossing `date.min` raises `OverflowError`, modelled by `Date.predOv`. -/
structure Date where
  year : Int
  month : Nat
  day : Nat
deriving DecidableEq

/-- Gregorian leap-year rule, as used by Python `datetime`. -/
def isLeapYear (y : Int) : Bool :=
  (y % 4 == 0 && y % 100 != 0) || y % 400 == 0

/-- Number of days in a month of a given year (Python `calendar.monthrange`
behaviour, implicit in `datetime.date` arithmetic). -/
def daysInMonth (y : Int) (m : Nat) : Nat :=
  if m == 2 then (if isLeapYear y then 29 else 28)
  else if m == 4 || m == 6 || m == 9 || m == 11 then 30
  else 31

/-- A structurally well-formed calendar date. -/
def Date.Valid (d : Date) : Prop :=
  1 ≤ d.month ∧ d.month ≤ 12 ∧ 1 ≤ d.day ∧ d.day ≤ daysInMonth d.year d.month

instance (d : Date) : Decidable d.Valid :=
  inferInstanceAs (Decidable (1 ≤ d.month ∧ d.month ≤ 12 ∧ 1 ≤ d.day ∧ d.day ≤ daysInMonth d.year d.month))

/-- The previous calendar day: the in-range case of Python
`some_date - timedelta(days=1)`.  Python raises `OverflowError` exactly when
the result would precede `date.min = 0001-01-01`; that error path is
modelled by `Date.predOv`, which returns `none` there and `some d.pred`
otherwise. -/
def Date.pred (d : Date) : Date :=
  if 2 ≤ d.day then ⟨d.year, d.month, d.day - 1⟩
  else if 2 ≤ d.month then ⟨d.year, d.month - 1, daysInMonth d.year (d.month - 1)⟩
  else ⟨d.year - 1, 12, 31⟩

/-- Walking backward: `Date.predN n d` walks `n` days backward from `d`; the embedding of
`d - timedelta(days=n)` (in particular `timedelta(weeks=1)` is `predN 7`). -/
def Date.predN : Nat → Date → Date
  | 0, d => d
  | n + 1, d => Date.predN n d.pred

/-- Strict lexicographic (chronological) order on dates. -/
def Date.Lt (a b : Date) : Prop :=
  a.year < b.year ∨ (a.year = b.year ∧ (a.month < b.month ∨ (a.month = b.month ∧ a.day < b.day)))

instance (a b : Date) : Decidable (a.Lt b) := by
  unfold Date.Lt
  infer_instance

/-- Chronological `≤` on dates as a boolean, used to embed Django date
lookups `__gte` / `__lte`. -/
def Date.ble (a b : Date) : Bool :=
  decide (a.year < b.year) ||
    (decide (a.year = b.year) &&
      (decide (a.month < b.month) || (decide (a.month = b.month) && decide (a.day ≤ b.day))))

/-- Loop body of `subtract_one_month` (`views.py` lines 43-51 in v1; the
identical method at v0 lines 99-107): keep stepping one day back while the
candidate is still in the original month or its day-of-month overshoots the
original day.  The Python `while` loop is embedded with explicit fuel; the
termination theorems below show that fuel `62` is never exhausted on a valid
date, so the fueled function agrees with the unbounded loop. -/
def subtractOneMonthAux (original_date : Date) : Nat → Date → Date
  | 0, cur => cur
  | fuel + 1, cur =>
    if cur.month = original_date.month ∨ cur.day > original_date.day then
      subtractOneMonthAux original_date fuel cur.pred
    else cur

/-- The no-overflow rendering of `subtract_one_month(original_date)`:
`one_month_earlier = original_date - one_day` followed by the backward walk,
with every one-day step taken by the total in-range predecessor.  The
faithful embedding including Python's `OverflowError` path is
`subtract_one_month_checked`; whenever that returns a date the two agree
(`subtract_one_month_checked_agrees`). -/
def subtract_one_month (original_date : Date) : Date :=
  subtractOneMonthAux original_date 62 original_date.pred

/-- A date Python `datetime.date` can represent: structurally well formed
with the year within `MINYEAR = 1 .. MAXYEAR = 9999`. -/
def Date.Representable (d : Date) : Prop :=
  d.Valid ∧ 1 ≤ d.year ∧ d.year ≤ 9999

instance (d : Date) : Decidable d.Representable :=
  inferInstanceAs (Decidable (d.Valid ∧ 1 ≤ d.year ∧ d.year ≤ 9999))

/-- Python `some_date - timedelta(days=1)` with its `OverflowError` path:
`none` exactly when the subtraction would cross `date.min = 0001-01-01`
(that is, on `0001-01-01` itself), `some` of the previous day otherwise. -/
def Date.predOv (d : Date) : Option Date :=
  if d.year = 1 ∧ d.month = 1 ∧ d.day = 1 then none else some d.pred

/-- The `subtract_one_month` loop with each one-day step taken by the
overflow-aware predecessor: `none` is the propagated `OverflowError`. -/
def subtractOneMonthAuxOv (original_date : Date) : Nat → Date → Option Date
  | 0, cur => some cur
  | fuel + 1, cur =>
    if cur.month = original_date.month ∨ cur.day > original_date.day then
      match cur.predOv with
      | some c => subtractOneMonthAuxOv original_date fuel c
      | none => none
    else some cur

/-- The faithful embedding of `subtract_one_month(original_date)` on
Python's bounded dates: the initial one-day subtraction and every loop step
may raise `OverflowError` (`none`). -/
def subtract_one_month_checked (original_date : Date) : Option Date :=
  match original_date.predOv with
  | some c => subtractOneMonthAuxOv original_date 62 c
  | none => none

/-- Year of the calendar month immediately before `d`'s month. -/
def prevYear (d : Date) : Int :=
  if 2 ≤ d.month then d.year else d.year - 1

/-- The calendar month immediately before `d`'s month. -/
def prevMonth (d : Date) : Nat :=
  if 2 ≤ d.month then d.month - 1 else 12

/-- The day-of-month at which the `subtract_one_month` loop stops: the
original day, clamped to the length of the previous month. -/
def stopDay (d : Date) : Nat :=
  if d.day ≤ daysInMonth (prevYear d) (prevMonth d) then d.day
  else daysInMonth (prevYear d) (prevMonth d)

/-- Closed form of the result of `subtract_one_month`: the previous month,
with the day-of-month clamped to that month's length. -/
def somTarget (d : Date) : Date :=
  ⟨prevYear d, prevMonth d, stopDay d⟩

/-- The set of intermediate candidates the `subtract_one_month` loop can be
at: either still inside the original month strictly below the original day,
or inside the previous month at or above the stopping day. -/
def walkCand (orig cur : Date) : Prop :=
  (cur.year = orig.year ∧ cur.month = orig.month ∧ 1 ≤ cur.day ∧ cur.day + 1 ≤ orig.day) ∨
  (cur.year = prevYear orig ∧ cur.month = prevMonth orig ∧
    stopDay orig ≤ cur.day ∧ cur.day ≤ daysInMonth (prevYear orig) (prevMonth orig))

/-- Loop variant: the number of backward steps left before the loop stops. -/
def walkDist (orig cur : Date) : Nat :=
  if cur.month = orig.month then
    cur.day + (daysInMonth (prevYear orig) (prevMonth orig) - stopDay orig)
  else
    cur.day - stopDay orig

/-- One learner-course enrollment record
(`EnterpriseLearnerEnrollment`; only the fields the embedded views read).
`datetime` fields are `Int` instants, `date` fields are `Date`,
nullable columns are `Option`. -/
structure Enrollment where
  pk : Nat
  enterprise_customer_uuid : String
  enterprise_user_id : Nat
  user_email : String
  course_title : String
  courserun_key : String
  is_consent_granted : Bool
  has_passed : Bool
  passed_date : Option Int
  last_activity_date : Option Date
  course_start_date : Option Date
  course_end_date : Option Int
  offer_id : Option String
  budget_id : Option String
  course_list_price : Option Int
  course_product_line : Option String
  is_subsidy : Bool
  created : Option Int
deriving DecidableEq

/-- The recognized query parameters of the v1 enrollment list endpoint
(`request.query_params`); an absent parameter is `none`, a parameter passed
with an empty value is `some ""`. -/
structure QueryParams where
  passed_date : Option String
  learner_activity : Option String
  search : Option String
  search_all : Option String
  search_course : Option String
  search_start_date : Option Date
  offer_id : Option String
  budget_id : Option String
  ignore_null_course_list_price : Option String
  course_product_line : Option String
  is_subsidy : Option String
deriving DecidableEq

/-- Query params with every parameter absent. -/
def emptyQueryParams : QueryParams :=
  ⟨none, none, none, none, none, none, none, none, none, none, none⟩

/-- Request-time instants: `date.today()` as a `Date` and `timezone.now()`
as an `Int` instant on the same timeline as the `datetime` columns. -/
structure Clock where
  today : Date
  now : Int
deriving DecidableEq

/-- Python truthiness of `query_params.get(...)`: an absent parameter and an
empty-string value are both falsy. -/
def truthy : Option String → Bool
  | none => false
  | some s => !s.isEmpty

/-- One week of the `Int` instant timeline, in seconds
(`timedelta(weeks=1)`). -/
def WEEK_SECONDS : Int := 7 * 24 * 60 * 60

/-- Django `course_end_date__gte=now` on a nullable datetime column
(`NULL` never satisfies a comparison lookup). -/
def endDateGe (now : Int) (e : Enrollment) : Bool :=
  match e.course_end_date with
  | some t => decide (now ≤ t)
  | none => false

/-- Django `course_end_date__lte=now` on a nullable datetime column. -/
def endDateLe (now : Int) (e : Enrollment) : Bool :=
  match e.course_end_date with
  | some t => decide (t ≤ now)
  | none => false

/-- Django `last_activity_date__gte=cutoff` on a nullable date column. -/
def lastActivityGe (cutoff : Date) (e : Enrollment) : Bool :=
  match e.last_activity_date with
  | some d => Date.ble cutoff d
  | none => false

/-- Django `last_activity_date__lte=cutoff` on a nullable date column. -/
def lastActivityLe (cutoff : Date) (e : Enrollment) : Bool :=
  match e.last_activity_date with
  | some d => Date.ble d cutoff
  | none => false

/-- If `pat` is a prefix of the list, the remainder after it. -/
def stripPrefixList : List Char → List Char → Option (List Char)
  | [], s => some s
  | _ :: _, [] => none
  | p :: ps, c :: cs => if p == c then stripPrefixList ps cs else none

/-- Fueled left-to-right removal of every occurrence of `pat`
(the behaviour of Python `str.replace(pat, '')` for nonempty `pat`; the
fuel, set to the subject length, is never exhausted then). -/
def removeAllAux (pat : List Char) : Nat → List Char → List Char
  | _, [] => []
  | 0, s => s
  | fuel + 1, c :: cs =>
    match stripPrefixList pat (c :: cs) with
    | some rest => removeAllAux pat fuel rest
    | none => c :: removeAllAux pat fuel cs

/-- Python `s.replace(pat, '')` for a nonempty pattern. -/
def removeAllStr (pat s : String) : String :=
  ⟨removeAllAux pat.toList s.toList.length s.toList⟩

/-- Opening or closing curly-brace character. -/
def isBraceChar (c : Char) : Bool :=
  c == Char.ofNat 123 || c == Char.ofNat 125

/-- Python `s.strip(braces)`: drop curly braces from both ends. -/
def stripBraces (s : String) : String :=
  ⟨((s.toList.dropWhile isBraceChar).reverse.dropWhile isBraceChar).reverse⟩

/-- ASCII lower-casing of one character (`str.lower` per character). -/
def charLower (c : Char) : Char :=
  if 65 ≤ c.toNat && c.toNat ≤ 90 then Char.ofNat (c.toNat + 32) else c

/-- ASCII lower-casing of a string (`str.lower`). -/
def lowerStr (s : String) : String :=
  String.mk (s.toList.map charLower)

/-- Hexadecimal digit test (the digits accepted by Python `int(_, 16)`,
restricted to plain hex digits). -/
def isHexDigit (c : Char) : Bool :=
  (48 ≤ c.toNat && c.toNat ≤ 57) || (97 ≤ c.toNat && c.toNat ≤ 102) ||
    (65 ≤ c.toNat && c.toNat ≤ 70)

/-- Value of a hexadecimal digit (0 for non-digits, used only under an
`isHexDigit` guard). -/
def hexVal (c : Char) : Nat :=
  if 48 ≤ c.toNat && c.toNat ≤ 57 then c.toNat - 48
  else if 97 ≤ c.toNat && c.toNat ≤ 102 then c.toNat - 87
  else if 65 ≤ c.toNat && c.toNat ≤ 70 then c.toNat - 55
  else 0

/-- Big-endian hexadecimal accumulator (`int(hex_string, 16)`). -/
def parseHexAux : List Char → Nat → Nat
  | [], acc => acc
  | c :: cs, acc => parseHexAux cs (16 * acc + hexVal c)

/-- Lower-case hex digit of a value below 16. -/
def hexChar (v : Nat) : Char :=
  if v < 10 then Char.ofNat (48 + v) else Char.ofNat (87 + v)

/-- The `count` low-order hex digits of `n`, most significant first, appended
before `acc`. -/
def toHexAux : Nat → Nat → List Char → List Char
  | 0, _, acc => acc
  | count + 1, n, acc => toHexAux count (n / 16) (hexChar (n % 16) :: acc)

/-- The 32 lower-case hex digits of a 128-bit value: how Python renders
`str(UUID(...)).replace('-', '')`. -/
def toHex32 (n : Nat) : String :=
  ⟨toHexAux 32 n []⟩

/-- All 128 bits set. -/
def MASK128 : Nat := 2 ^ 128 - 1

/-- The `uuid.UUID(hex, version=4)` constructor does not validate the
version of its input: it forces the variant bits to the RFC 4122 pattern
and overwrites the version nibble with 4
(`int &= ~(0xc000 << 48); int |= 0x8000 << 48;
int &= ~(0xf000 << 64); int |= 4 << 76`). -/
def forceVersion4 (n : Nat) : Nat :=
  let n1 := (n &&& (MASK128 ^^^ (0xc000 <<< 48))) ||| (0x8000 <<< 48)
  (n1 &&& (MASK128 ^^^ (0xf000 <<< 64))) ||| (4 <<< 76)

/-- The candidate hex string the `uuid.UUID` constructor derives from its
argument: remove `urn:` and `uuid:` markers, strip surrounding braces, and
remove every hyphen. -/
def uuidHexCandidate (s : String) : String :=
  removeAllStr "-" (stripBraces (removeAllStr "uuid:" (removeAllStr "urn:" s)))

/-- ASCII whitespace, which Python `int(_, 16)` strips from both ends
(the builtin also strips some Unicode spaces, not modelled: offer ids are
ASCII). -/
def isSpaceChar (c : Char) : Bool :=
  c.toNat == 32 || c.toNat == 9 || c.toNat == 10 || c.toNat == 11 ||
    c.toNat == 12 || c.toNat == 13

/-- Underscore, the digit separator Python `int(_, 16)` accepts. -/
def isUnderscoreChar (c : Char) : Bool :=
  c.toNat == 95

/-- Digit-group shape accepted by Python `int(_, 16)` after sign/prefix
handling: nonempty, starts and ends with a hex digit, single underscores
only between digits.  The boolean argument records whether the previous
character was a digit. -/
def hexGroupsAux : Bool → List Char → Bool
  | prev, [] => prev
  | prev, c :: cs =>
    if isHexDigit c then hexGroupsAux true cs
    else if isUnderscoreChar c then prev && hexGroupsAux false cs
    else false

/-- The builtin `int(s, 16)`: optional surrounding whitespace, optional
sign, optional `0x`/`0X` prefix (an underscore may directly follow the
prefix), hex digits with single underscores between them; `none` is the
`ValueError` path.  Restricted to ASCII digits and spaces. -/
def parseIntBase16 (s : String) : Option Int :=
  let l1 := s.toList.dropWhile isSpaceChar
  let l2 := (l1.reverse.dropWhile isSpaceChar).reverse
  let signNeg : Bool :=
    match l2 with
    | c :: _ => c == '-'
    | [] => false
  let l3 : List Char :=
    match l2 with
    | c :: rest => if c == '+' || c == '-' then rest else l2
    | [] => []
  let hadPrefix : Bool :=
    match l3 with
    | c0 :: c1 :: _ => c0 == '0' && (c1 == 'x' || c1 == 'X')
    | _ => false
  let l4 : List Char :=
    match l3 with
    | c0 :: c1 :: rest => if c0 == '0' && (c1 == 'x' || c1 == 'X') then rest else l3
    | _ => l3
  let l5 : List Char :=
    if hadPrefix then
      match l4 with
      | c :: rest => if isUnderscoreChar c then rest else l4
      | [] => l4
    else l4
  if hexGroupsAux false l5 then
    let mag : Nat := parseHexAux (l5.filter (fun c => !isUnderscoreChar c)) 0
    some (if signNeg then -(mag : Int) else (mag : Int))
  else none

/-- Whether `uuid.UUID(s, version=4)` succeeds, and with which 128-bit
value: the candidate must be exactly 32 characters, parse under the builtin
`int(_, 16)` rules, and lie in `[0, 2^128)` (the constructor's range check;
it can never fail on this path because hyphens, hence minus signs, were
already removed from the candidate). -/
def uuidParse (s : String) : Option Nat :=
  let h := uuidHexCandidate s
  if h.length == 32 then
    match parseIntBase16 h with
    | some n => if 0 ≤ n ∧ n < 2 ^ 128 then some n.toNat else none
    | none => none
  else none

/-- Whether `uuid.UUID(s, version=4)` succeeds. -/
def uuidParseOk (s : String) : Bool :=
  (uuidParse s).isSome

/-- The transformation `filter_by_offer_id` applies to the query value
(`views.py` lines 204-223): on a parseable value, the lower-case hyphen-free
hex of `UUID(offer_id, version=4)`; on a `ValueError` the value is left
unchanged. -/
def normalize_offer_id (offer_id : String) : String :=
  match uuidParse offer_id with
  | some n => toHex32 (forceVersion4 n)
  | none => offer_id

/-- Embedding of `EnterpriseLearnerEnrollmentViewSet.filter_by_offer_id`. -/
def filter_by_offer_id (queryset : List Enrollment) (offer_id : String) : List Enrollment :=
  queryset.filter (fun e => e.offer_id == some (normalize_offer_id offer_id))

/-- The normalization that the specification's words describe (refinement
reference, not source): a value parseable as a *version-4* UUID is
canonicalized to lowercase hex with hyphens stripped; any other value is
compared exactly as given. -/
def isVersion4UuidString (s : String) : Bool :=
  let h := lowerStr (removeAllStr "-" s)
  h.length == 32 && h.toList.all isHexDigit &&
    h.toList.getD 12 (Char.ofNat 120) == Char.ofNat 52 &&
    (h.toList.getD 16 (Char.ofNat 120) == Char.ofNat 56 ||
     h.toList.getD 16 (Char.ofNat 120) == Char.ofNat 57 ||
     h.toList.getD 16 (Char.ofNat 120) == Char.ofNat 97 ||
     h.toList.getD 16 (Char.ofNat 120) == Char.ofNat 98)

/-- Offer-id normalization as the specification's words describe it
(refinement reference, not source). -/
def normalize_offer_id_claim (s : String) : String :=
  if isVersion4UuidString s then lowerStr (removeAllStr "-" s) else s

/-- Offer-id filtering as the specification's words describe it
(refinement reference, not source). -/
def filter_by_offer_id_claim (queryset : List Enrollment) (offer_id : String) : List Enrollment :=
  queryset.filter (fun e => e.offer_id == some (normalize_offer_id_claim offer_id))

/-- Case-insensitive substring test, embedding Django `__icontains`. -/
def containsSub : List Char → List Char → Bool
  | haystack, needle =>
    match haystack with
    | [] => needle.isEmpty
    | _ :: t => (stripPrefixList needle haystack).isSome || containsSub t needle

/-- Django `field__icontains=needle`. -/
def icontains (haystack needle : String) : Bool :=
  containsSub (lowerStr haystack).toList (lowerStr needle).toList

/-- Embedding of `filter_past_week_completions`: completions whose
`passed_date` lies within the last week of the instant `now`. -/
def filter_past_week_completions (now : Int) (queryset : List Enrollment) : List Enrollment :=
  queryset.filter (fun e =>
    e.has_passed &&
      (match e.passed_date with
       | some t => decide (t ≤ now) && decide (now - WEEK_SECONDS ≤ t)
       | none => false))

/-- Embedding of `filter_active_enrollments`: not yet passed and the course
end date still in the future. -/
def filter_active_enrollments (now : Int) (queryset : List Enrollment) : List Enrollment :=
  queryset.filter (fun e => !e.has_passed && endDateGe now e)

/-- Embedding of `filter_active_learners`. -/
def filter_active_learners (queryset : List Enrollment) (last_activity_date : Date) : List Enrollment :=
  queryset.filter (lastActivityGe last_activity_date)

/-- Embedding of `filter_inactive_learners`. -/
def filter_inactive_learners (queryset : List Enrollment) (last_activity_date : Date) : List Enrollment :=
  queryset.filter (lastActivityLe last_activity_date)

/-- Embedding of `filter_course_completions` (`has_passed=1`). -/
def filter_course_completions (queryset : List Enrollment) : List Enrollment :=
  queryset.filter (fun e => e.has_passed)

/-- Embedding of `filter_distinct_learners`
(`values_list('enterprise_user_id', flat=True).distinct()`). -/
def filter_distinct_learners (queryset : List Enrollment) : List Nat :=
  (queryset.map (fun e => e.enterprise_user_id)).dedup

/-- Boolean coercion Django applies to the `is_subsidy` query value. -/
def parseBoolParam (v : String) : Bool :=
  v == "true" || v == "True" || v == "1"

/-- Embedding of `EnterpriseLearnerEnrollmentViewSet.apply_filters`
(`views.py` lines 143-202), stage by stage in source order. -/
def apply_filters (clock : Clock) (qp : QueryParams) (queryset : List Enrollment) : List Enrollment :=
  let past_week_date := Date.predN 7 clock.today
  let past_month_date := subtract_one_month clock.today
  let qs1 :=
    if qp.passed_date == some "last_week" then filter_past_week_completions clock.now queryset
    else queryset
  let qs2 := if truthy qp.learner_activity then filter_active_enrollments clock.now qs1 else qs1
  let qs3 :=
    if qp.learner_activity == some "active_past_week" then
      filter_active_learners qs2 past_week_date
    else if qp.learner_activity == some "inactive_past_week" then
      filter_inactive_learners qs2 past_week_date
    else if qp.learner_activity == some "inactive_past_month" then
      filter_inactive_learners qs2 past_month_date
    else qs2
  let qs4 :=
    if truthy qp.search then qs3.filter (fun e => icontains e.user_email (qp.search.getD ""))
    else qs3
  let qs5 :=
    if truthy qp.search_all then
      qs4.filter (fun e =>
        icontains e.user_email (qp.search_all.getD "") ||
          icontains e.course_title (qp.search_all.getD ""))
    else qs4
  let qs6 :=
    if truthy qp.search_course then
      qs5.filter (fun e => icontains e.course_title (qp.search_course.getD ""))
    else qs5
  let qs7 :=
    if qp.search_start_date.isSome then
      qs6.filter (fun e => e.course_start_date == qp.search_start_date)
    else qs6
  let qs8 :=
    if truthy qp.offer_id then filter_by_offer_id qs7 (qp.offer_id.getD "") else qs7
  let qs9 :=
    if truthy qp.budget_id then qs8.filter (fun e => e.budget_id == qp.budget_id) else qs8
  let qs10 :=
    if truthy qp.ignore_null_course_list_price then
      qs9.filter (fun e => e.course_list_price.isSome)
    else qs9
  let qs11 :=
    if truthy qp.course_product_line then
      qs10.filter (fun e => e.course_product_line == qp.course_product_line)
    else qs10
  if truthy qp.is_subsidy then
    qs11.filter (fun e => e.is_subsidy == parseBoolParam (qp.is_subsidy.getD ""))
  else qs11

/-- Cache keys.  Modelled from the spec: `get_cache_key` (in
`enterprise_data/utils.py`, outside the embedded sources) derives the key
deterministically from the resource name and the enterprise id, so distinct
resources or enterprises never collide; the pair itself is such a key. -/
def get_cache_key (resource : String) (enterprise_customer : String) : String × String :=
  (resource, enterprise_customer)

/-- One stored cache entry: the cached queryset and its expiry instant. -/
structure CacheEntry where
  value : List Enrollment
  expires_at : Int
deriving DecidableEq

/-- The external tiered cache, modelled as an association list keyed by
cache key.  Modelled from the spec: `TieredCache` is an external
collaborator with `get_or_compute` semantics (return an unexpired stored
value, else compute, store with expiry `now+ttl`, return). -/
def CacheState := List ((String × String) × CacheEntry)
deriving instance DecidableEq for CacheState

/-- Embedding of `TieredCache.get_cached_response`: a stored, unexpired value. -/
def get_cached_response (st : CacheState) (now : Int) (key : String × String) :
    Option (List Enrollment) :=
  match (List.find? (fun p => p.1 == key) st).map (fun p => p.2) with
  | some entry => if now < entry.expires_at then some entry.value else none
  | none => none

/-- Embedding of `TieredCache.set_all_tiers`: store a value under the key with expiry
`now + timeout` (last write wins). -/
def set_all_tiers (st : CacheState) (now : Int) (key : String × String)
    (value : List Enrollment) (timeout : Int) : CacheState :=
  (key, ⟨value, now + timeout⟩) :: st.filter (fun p => !(p.1 == key))

/-- The constant `DEFAULT_LEARNER_CACHE_TIMEOUT = 60 * 10` (`views.py` line 40). -/
def DEFAULT_LEARNER_CACHE_TIMEOUT : Int := 60 * 10

/-- Result of `EnterpriseLearnerEnrollmentViewSet.get_queryset`: the
returned queryset, the cache state after the call, and whether the filtered
set was recomputed (`false` on a cache hit). -/
structure EnrollmentQueryResult where
  value : List Enrollment
  cache : CacheState
  computed : Bool
deriving DecidableEq

/-- Embedding of `EnterpriseLearnerEnrollmentViewSet.get_queryset`
(`views.py` lines 109-141): look up the cache under the key derived from
`('enterprise-learner', enterprise_id)`; on a hit return the cached set; on
a miss filter the enterprise's enrollments, apply the query filters, store
the result with the default timeout and return it. -/
def enrollment_get_queryset (st : CacheState) (clock : Clock) (qp : QueryParams)
    (db : List Enrollment) (enterprise_id : String) : EnrollmentQueryResult :=
  let cache_key := get_cache_key "enterprise-learner" enterprise_id
  match get_cached_response st clock.now cache_key with
  | some v => ⟨v, st, false⟩
  | none =>
    let enrollments := db.filter (fun e => e.enterprise_customer_uuid == enterprise_id)
    let filtered := apply_filters clock qp enrollments
    ⟨filtered, set_all_tiers st clock.now cache_key filtered DEFAULT_LEARNER_CACHE_TIMEOUT, true⟩

/-- An enterprise learner record (`EnterpriseLearner`; the fields the
embedded views read). -/
structure Learner where
  enterprise_user_id : Nat
  enterprise_customer_uuid : String
  user_email : String
deriving DecidableEq

/-- The per-enrollment predicate of the learner filter `active_courses=true`
(`views.py` lines 381-385): the joined enrollment row must satisfy
`is_consent_granted=True` and `course_end_date__gte=now`. -/
def activeCoursePred (now : Int) (e : Enrollment) : Bool :=
  e.is_consent_granted && endDateGe now e

/-- The per-enrollment predicate of the learner filter `active_courses=false`
(`views.py` lines 386-390): `is_consent_granted=True` and
`course_end_date__lte=now`. -/
def inactiveCoursePred (now : Int) (e : Enrollment) : Bool :=
  e.is_consent_granted && endDateLe now e

/-- The `enrollment_count` annotation value (`views.py` lines 399-414):
`Coalesce(Subquery(... filter(enterprise_user=learner, is_consent_granted=True)
 .annotate(Count('pk', distinct=True))), 0)` — the number of distinct
consent-granted enrollment rows of the learner, `0` when there are none. -/
def enrollment_count_value (es : List Enrollment) (enterprise_user_id : Nat) : Nat :=
  (((es.filter (fun e =>
      e.enterprise_user_id == enterprise_user_id && e.is_consent_granted)).map
    (fun e => e.pk)).dedup).length

/-- The `course_completion_count` annotation value (`views.py` lines
417-435): distinct consent-granted rows that additionally have
`has_passed=True`, `0` when there are none. -/
def course_completion_count_value (es : List Enrollment) (enterprise_user_id : Nat) : Nat :=
  (((es.filter (fun e =>
      e.enterprise_user_id == enterprise_user_id && e.has_passed &&
        e.is_consent_granted)).map (fun e => e.pk)).dedup).length

/-- Query parameters of the learner list endpoint. -/
structure LearnerQueryParams where
  has_enrollments : Option String
  active_courses : Option String
  all_enrollments_passed : Option String
  extra_fields : List String
deriving DecidableEq

/-- A learner row as returned by the learner list queryset, with the
optional annotations (`none` when the annotation was not requested). -/
structure AnnotatedLearner where
  learner : Learner
  enrollment_count : Option Nat
  course_completion_count : Option Nat
deriving DecidableEq

/-- Embedding of `EnterpriseLearnerViewSet.get_queryset` (`views.py` lines
363-437).  Multi-valued Django joins are embedded by their membership
semantics (a learner passes a join filter iff some enrollment row of that
learner satisfies all conditions of the `filter(...)` call); the row
multiplicity a bare join can introduce is not modelled. -/
def learner_get_queryset (now : Int) (es : List Enrollment) (qp : LearnerQueryParams)
    (queryset : List Learner) : List AnnotatedLearner :=
  let qs1 :=
    if qp.has_enrollments == some "true" then
      queryset.filter (fun l =>
        es.any (fun e => e.enterprise_user_id == l.enterprise_user_id))
    else if qp.has_enrollments == some "false" then
      queryset.filter (fun l =>
        !es.any (fun e => e.enterprise_user_id == l.enterprise_user_id))
    else queryset
  let qs2 :=
    if qp.active_courses == some "true" then
      qs1.filter (fun l =>
        es.any (fun e =>
          e.enterprise_user_id == l.enterprise_user_id && activeCoursePred now e))
    else if qp.active_courses == some "false" then
      qs1.filter (fun l =>
        es.any (fun e =>
          e.enterprise_user_id == l.enterprise_user_id && inactiveCoursePred now e))
    else qs1
  let qs3 :=
    if qp.all_enrollments_passed == some "true" then
      qs2.filter (fun l =>
        es.any (fun e => e.enterprise_user_id == l.enterprise_user_id && e.has_passed))
    else if qp.all_enrollments_passed == some "false" then
      qs2.filter (fun l =>
        es.any (fun e => e.enterprise_user_id == l.enterprise_user_id && !e.has_passed))
    else qs2
  qs3.map (fun l =>
    { learner := l,
      enrollment_count :=
        if qp.extra_fields.contains "enrollment_count" then
          some (enrollment_count_value es l.enterprise_user_id)
        else none,
      course_completion_count :=
        if qp.extra_fields.contains "course_completion_count" then
          some (course_completion_count_value es l.enterprise_user_id)
        else none })

/-- Insertion of an (email, count) row into a list sorted by email. -/
def insertByEmail (x : String × Nat) : List (String × Nat) → List (String × Nat)
  | [] => [x]
  | y :: ys => if x.1 ≤ y.1 then x :: y :: ys else y :: insertByEmail x ys

/-- Embedding of ordering by user email on grouped rows. -/
def sortByEmail (rows : List (String × Nat)) : List (String × Nat) :=
  rows.foldr insertByEmail []

/-- Embedding of `EnterpriseLearnerCompletedCoursesViewSet.get_queryset`
(`views.py` lines 467-482): filter the enterprise's enrollments to
`has_passed=True, is_consent_granted=True`, group by `user_email`, count
`courserun_key` per group, order by email. -/
def completed_courses_queryset (es : List Enrollment) (enterprise_id : String) :
    List (String × Nat) :=
  let fs := es.filter (fun e =>
    e.enterprise_customer_uuid == enterprise_id && e.has_passed && e.is_consent_granted)
  sortByEmail (((fs.map (fun e => e.user_email)).dedup).map
    (fun em => (em, (fs.filter (fun e => e.user_email == em)).length)))

/-- A precomputed learner-progress snapshot row
(`EnterpriseAdminLearnerProgress`; payload abstracted). -/
structure LearnerProgressRow where
  enterprise_customer_uuid : String
  payload : Nat
deriving DecidableEq

/-- A precomputed learner-engagement snapshot row
(`EnterpriseAdminSummarizeInsights`; payload abstracted). -/
structure SummarizeInsightsRow where
  enterprise_customer_uuid : String
  payload : Nat
deriving DecidableEq

/-- The response assembled by `EnterpriseAdminInsightsView.get`: the two
optional sections and the HTTP status. -/
structure InsightsResponse where
  learner_progress : Option LearnerProgressRow
  learner_engagement : Option SummarizeInsightsRow
  status : Nat
deriving DecidableEq

/-- Status constant `HTTP_200_OK`. -/
def HTTP_200_OK : Nat := 200

/-- Status constant `HTTP_404_NOT_FOUND`. -/
def HTTP_404_NOT_FOUND : Nat := 404

/-- Embedding of `EnterpriseAdminInsightsView.get` (`views.py` lines
493-519).  `Model.objects.get(...)` returning a row or raising
`DoesNotExist` (recovered by `except ... pass`) is embedded as `find?`; a
section key is present in the response exactly when the lookup found a row,
and the serialized section of an existing row is never the empty dict, so
the `== {}` test in the source is the `isNone` test here. -/
def admin_insights_get (progressRows : List LearnerProgressRow)
    (engagementRows : List SummarizeInsightsRow) (enterprise_id : String) : InsightsResponse :=
  let lp := progressRows.find? (fun r => r.enterprise_customer_uuid == enterprise_id)
  let le := engagementRows.find? (fun r => r.enterprise_customer_uuid == enterprise_id)
  ⟨lp, le, if lp.isNone && le.isNone then HTTP_404_NOT_FOUND else HTTP_200_OK⟩

/-- A v0 enrollment record (`EnterpriseEnrollment`; the fields the embedded
v0 views read — note the consent column is named `consent_granted` there). -/
structure EnrollmentV0 where
  enterprise_id : String
  enterprise_user_id : Nat
  consent_granted : Bool
  has_passed : Bool
  last_activity_date : Option Date
deriving DecidableEq

/-- Modelled from the spec: `ConsentGrantedFilterBackend` (in
`enterprise_data/filters.py`, outside the embedded sources) — per the spec
and the in-source docstring it "filters queryset to only return consenting
learners", i.e. keeps exactly the rows whose `consent_granted` flag is set. -/
def consent_granted_filter (queryset : List EnrollmentV0) : List EnrollmentV0 :=
  queryset.filter (fun e => e.consent_granted)

/-- A single-quote character (used in the v0 not-found message). -/
def squote : String := String.singleton (Char.ofNat 39)

/-- The v0 not-found message
(`"No course enrollments are associated with Enterprise {id} from endpoint '{path}'."`). -/
def v0_not_found_message (enterprise_id path : String) : String :=
  "No course enrollments are associated with Enterprise " ++ enterprise_id ++
    " from endpoint " ++ squote ++ path ++ squote ++ "."

/-- The error raised (and logged) by `ensure_data_exists`. -/
structure LoggedNotFound where
  message : String
  logged : Bool
deriving DecidableEq

/-- Embedding of `EnterpriseEnrollmentsViewSet.get_queryset` (v0 `views.py`
lines 59-77): scope to the enterprise, apply the consent filter, and raise
a logged `NotFound` when the result is empty. -/
def v0_get_queryset (db : List EnrollmentV0) (enterprise_id path : String) :
    Except LoggedNotFound (List EnrollmentV0) :=
  let enrollments := db.filter (fun e => e.enterprise_id == enterprise_id)
  let filtered := consent_granted_filter enrollments
  if filtered.isEmpty then
    Except.error ⟨v0_not_found_message enterprise_id path, true⟩
  else Except.ok filtered

/-- v0 `filter_distinct_learners`. -/
def v0_filter_distinct_learners (queryset : List EnrollmentV0) : List Nat :=
  (queryset.map (fun e => e.enterprise_user_id)).dedup

/-- v0 `filter_active_learners` (distinct learners with
`last_activity_date__gte=cutoff`). -/
def v0_filter_active_learners (queryset : List EnrollmentV0) (cutoff : Date) : List Nat :=
  v0_filter_distinct_learners (queryset.filter (fun e =>
    match e.last_activity_date with
    | some d => Date.ble cutoff d
    | none => false))

/-- v0 `filter_course_completions` (`has_passed=1`). -/
def v0_filter_course_completions (queryset : List EnrollmentV0) : List EnrollmentV0 :=
  queryset.filter (fun e => e.has_passed)

/-- The v0 overview payload. -/
structure V0OverviewContent where
  enrolled_learners : Nat
  active_learners_past_week : Nat
  active_learners_past_month : Nat
  course_completions : Nat
deriving DecidableEq

/-- Embedding of `EnterpriseEnrollmentsViewSet.overview` (v0 `views.py`
lines 109-133): it calls `get_queryset`, so the logged `NotFound` of an
empty consent-filtered set propagates. -/
def v0_overview (db : List EnrollmentV0) (enterprise_id path : String) (today : Date) :
    Except LoggedNotFound V0OverviewContent :=
  match v0_get_queryset db enterprise_id path with
  | Except.error err => Except.error err
  | Except.ok enrollments =>
    Except.ok
      { enrolled_learners := (v0_filter_distinct_learners enrollments).length,
        active_learners_past_week :=
          (v0_filter_active_learners enrollments (Date.predN 7 today)).length,
        active_learners_past_month :=
          (v0_filter_active_learners enrollments (subtract_one_month today)).length,
        course_completions := (v0_filter_course_completions enrollments).length }

/-- A generic enrollment row used by the concrete witnesses and
counterexamples below. -/
def baseEnrollment : Enrollment :=
  { pk := 1
    enterprise_customer_uuid := "ent-1"
    enterprise_user_id := 10
    user_email := "alice@example.com"
    course_title := "Course"
    courserun_key := "course-v1:run"
    is_consent_granted := true
    has_passed := false
    passed_date := none
    last_activity_date := none
    course_start_date := none
    course_end_date := none
    offer_id := none
    budget_id := none
    course_list_price := none
    course_product_line := none
    is_subsidy := false
    created := none }

/-- A generic learner row used by the concrete witnesses and
counterexamples below. -/
def baseLearner : Learner :=
  { enterprise_user_id := 10
    enterprise_customer_uuid := "ent-1"
    user_email := "alice@example.com" }

/-- A consent-denied enrollment used by the witnesses below. -/
def noConsentEnrollment : Enrollment :=
  { baseEnrollment with is_consent_granted := false, has_passed := true, pk := 2 }

/-- Learner query params requesting both annotations. -/
def annotQP : LearnerQueryParams :=
  ⟨none, none, none, ["enrollment_count", "course_completion_count"]⟩

/-- A consent-granted enrollment whose course ends exactly at the request
instant (`now = 0`). -/
def boundaryEnrollment : Enrollment :=
  { baseEnrollment with course_end_date := some 0 }

/-- An unpassed enrollment, recently active, with a future course end. -/
def activeWeekEnrollment : Enrollment :=
  { baseEnrollment with
      course_end_date := some 100
      last_activity_date := some ⟨2024, 1, 10⟩
      pk := 6 }

/-- A passed enrollment (which an active-enrollment filter must drop). -/
def passedEnrollment : Enrollment :=
  { baseEnrollment with has_passed := true, pk := 3 }

/-- Query params with `learner_activity` present but empty. -/
def emptyActivityQP : QueryParams :=
  { emptyQueryParams with learner_activity := some "" }

/-- Query params with `learner_activity=active_past_week`. -/
def activityQP : QueryParams :=
  { emptyQueryParams with learner_activity := some "active_past_week" }

/-- The request clock used by the C8 witness. -/
def witClock : Clock := ⟨⟨2024, 1, 15⟩, 0⟩

/-- An enrollment whose offer id is the stored (hyphen-free, lower-case,
version-forced) form of the example UUID. -/
def offerEnrollmentUuid : Enrollment :=
  { baseEnrollment with offer_id := some "123e4567e89b42d3a456426614174000", pk := 4 }

/-- An enrollment with a plain integer-like offer id. -/
def offerEnrollment42 : Enrollment :=
  { baseEnrollment with offer_id := some "42", pk := 5 }

/-- The clock used by the C4 witness. -/
def cacheClock : Clock := ⟨⟨2024, 1, 1⟩, 0⟩

theorem daysInMonth_ge (y : Int) (m : Nat) : 28 ≤ daysInMonth y m := by
  unfold daysInMonth
  split
  · split <;> omega
  · split <;> omega

theorem daysInMonth_le (y : Int) (m : Nat) : daysInMonth y m ≤ 31 := by
  unfold daysInMonth
  split
  · split <;> omega
  · split <;> omega

theorem daysInMonth_december (y : Int) : daysInMonth y 12 = 31 := rfl

theorem daysInMonth_january (y : Int) : daysInMonth y 1 = 31 := rfl

theorem prevMonth_ne (d : Date) (hv : d.Valid) : prevMonth d ≠ d.month := by
  obtain ⟨h1, h2, _, _⟩ := hv
  unfold prevMonth
  split <;> omega

theorem prevMonth_bounds (d : Date) (hv : d.Valid) :
    1 ≤ prevMonth d ∧ prevMonth d ≤ 12 := by
  obtain ⟨h1, h2, _, _⟩ := hv
  unfold prevMonth
  split <;> omega

theorem stopDay_le_day (d : Date) : stopDay d ≤ d.day := by
  unfold stopDay
  split <;> omega

theorem stopDay_le_len (d : Date) : stopDay d ≤ daysInMonth (prevYear d) (prevMonth d) := by
  unfold stopDay
  split <;> omega

theorem stopDay_pos (d : Date) (h : 1 ≤ d.day) : 1 ≤ stopDay d := by
  have := daysInMonth_ge (prevYear d) (prevMonth d)
  unfold stopDay
  split <;> omega

theorem stopDay_lt (d : Date) (k : Nat) (h1 : stopDay d < k)
    (h2 : k ≤ daysInMonth (prevYear d) (prevMonth d)) : d.day < k := by
  unfold stopDay at h1
  split at h1 <;> omega

theorem walkDist_same (orig : Date) (y : Int) (d : Nat) :
    walkDist orig ⟨y, orig.month, d⟩ =
      d + (daysInMonth (prevYear orig) (prevMonth orig) - stopDay orig) := by
  unfold walkDist
  rw [if_pos]
  rfl

theorem walkDist_other (orig : Date) (y : Int) (m d : Nat) (h : m ≠ orig.month) :
    walkDist orig ⟨y, m, d⟩ = d - stopDay orig := by
  unfold walkDist
  rw [if_neg]
  exact h

theorem subtractOneMonthAux_eq (orig : Date) (hv : orig.Valid) :
    ∀ fuel cur, walkCand orig cur → walkDist orig cur < fuel →
      subtractOneMonthAux orig fuel cur = somTarget orig := by
  intro fuel
  induction fuel with
  | zero => intro cur _ hd; omega
  | succ n ih =>
    intro cur hc hd
    obtain ⟨hm1, hm12, hd1, hdM⟩ := hv
    have hL28 : 28 ≤ daysInMonth (prevYear orig) (prevMonth orig) := daysInMonth_ge _ _
    have hL31 : daysInMonth (prevYear orig) (prevMonth orig) ≤ 31 := daysInMonth_le _ _
    have hM31 : daysInMonth orig.year orig.month ≤ 31 := daysInMonth_le _ _
    have htle : stopDay orig ≤ orig.day := stopDay_le_day orig
    have htL : stopDay orig ≤ daysInMonth (prevYear orig) (prevMonth orig) := stopDay_le_len orig
    have ht1 : 1 ≤ stopDay orig := stopDay_pos orig hd1
    rcases hc with ⟨hy, hm, hc1, hc2⟩ | ⟨hy, hm, hc1, hc2⟩
    · -- still inside the original month: the loop keeps stepping back
      have hdcur : walkDist orig cur =
          cur.day + (daysInMonth (prevYear orig) (prevMonth orig) - stopDay orig) := by
        unfold walkDist
        rw [if_pos hm]
      rw [subtractOneMonthAux, if_pos (Or.inl hm)]
      by_cases hcd : 2 ≤ cur.day
      · have hpred : cur.pred = ⟨cur.year, cur.month, cur.day - 1⟩ := by
          unfold Date.pred
          rw [if_pos hcd]
        rw [hpred]
        apply ih
        · refine Or.inl ⟨hy, hm, ?_, ?_⟩
          · show 1 ≤ cur.day - 1
            omega
          · show cur.day - 1 + 1 ≤ orig.day
            omega
        · have hwd : walkDist orig ⟨cur.year, cur.month, cur.day - 1⟩ =
              (cur.day - 1) + (daysInMonth (prevYear orig) (prevMonth orig) - stopDay orig) := by
            rw [hm]
            exact walkDist_same orig cur.year (cur.day - 1)
          omega
      · -- at day 1 of the original month: step into the previous month
        have hcday : cur.day = 1 := by omega
        by_cases hcm : 2 ≤ cur.month
        · have hocm : 2 ≤ orig.month := hm ▸ hcm
          have hpy : prevYear orig = orig.year := by
            unfold prevYear
            rw [if_pos hocm]
          have hpm : prevMonth orig = orig.month - 1 := by
            unfold prevMonth
            rw [if_pos hocm]
          have hpred : cur.pred =
              ⟨cur.year, cur.month - 1, daysInMonth cur.year (cur.month - 1)⟩ := by
            unfold Date.pred
            rw [if_neg (by omega), if_pos hcm]
          have hLeq : daysInMonth cur.year (cur.month - 1) =
              daysInMonth (prevYear orig) (prevMonth orig) := by
            rw [hpy, hpm, hy, hm]
          rw [hpred]
          apply ih
          · refine Or.inr ⟨?_, ?_, ?_, ?_⟩
            · show cur.year = prevYear orig
              omega
            · show cur.month - 1 = prevMonth orig
              omega
            · show stopDay orig ≤ daysInMonth cur.year (cur.month - 1)
              omega
            · show daysInMonth cur.year (cur.month - 1) ≤
                daysInMonth (prevYear orig) (prevMonth orig)
              omega
          · have hne : cur.month - 1 ≠ orig.month := by omega
            rw [walkDist_other orig cur.year (cur.month - 1)
              (daysInMonth cur.year (cur.month - 1)) hne]
            omega
        · -- January: step into December of the previous year
          have hcm1 : cur.month = 1 := by omega
          have hom1 : orig.month = 1 := by omega
          have hpy : prevYear orig = orig.year - 1 := by
            unfold prevYear
            rw [if_neg (by omega)]
          have hpm : prevMonth orig = 12 := by
            unfold prevMonth
            rw [if_neg (by omega)]
          have hpred : cur.pred = ⟨cur.year - 1, 12, 31⟩ := by
            unfold Date.pred
            rw [if_neg (by omega), if_neg (by omega)]
          have hL12 : daysInMonth (prevYear orig) (prevMonth orig) = 31 := by
            rw [hpm, daysInMonth_december]
          rw [hpred]
          apply ih
          · refine Or.inr ⟨?_, ?_, ?_, ?_⟩
            · show cur.year - 1 = prevYear orig
              omega
            · show 12 = prevMonth orig
              omega
            · show stopDay orig ≤ 31
              omega
            · show 31 ≤ daysInMonth (prevYear orig) (prevMonth orig)
              omega
          · have hne : (12 : Nat) ≠ orig.month := by omega
            rw [walkDist_other orig (cur.year - 1) 12 31 hne]
            omega
    · -- inside the previous month
      have hpmne : prevMonth orig ≠ orig.month := prevMonth_ne orig ⟨hm1, hm12, hd1, hdM⟩
      have hmne : cur.month ≠ orig.month := hm ▸ hpmne
      have hdcur : walkDist orig cur = cur.day - stopDay orig := by
        unfold walkDist
        rw [if_neg hmne]
      by_cases hstop : cur.day = stopDay orig
      · -- reached the stopping day: the guard is false, the loop returns
        rw [subtractOneMonthAux, if_neg]
        · unfold somTarget
          cases cur
          simp only at hy hm hstop
          rw [hy, hm, hstop]
        · push_neg
          exact ⟨hmne, by omega⟩
      · -- still above the stopping day: guard is true via the day comparison
        have hgt : orig.day < cur.day := stopDay_lt orig cur.day (by omega) hc2
        rw [subtractOneMonthAux, if_pos (Or.inr hgt)]
        have hcd : 2 ≤ cur.day := by omega
        have hpred : cur.pred = ⟨cur.year, cur.month, cur.day - 1⟩ := by
          unfold Date.pred
          rw [if_pos hcd]
        rw [hpred]
        apply ih
        · refine Or.inr ⟨hy, hm, ?_, ?_⟩
          · show stopDay orig ≤ cur.day - 1
            omega
          · show cur.day - 1 ≤ daysInMonth (prevYear orig) (prevMonth orig)
            omega
        · rw [walkDist_other orig cur.year cur.month (cur.day - 1) hmne]
          omega

theorem walkCand_pred (orig : Date) (hv : orig.Valid) :
    walkCand orig orig.pred ∧ walkDist orig orig.pred < 62 := by
  obtain ⟨hm1, hm12, hd1, hdM⟩ := hv
  have hL28 : 28 ≤ daysInMonth (prevYear orig) (prevMonth orig) := daysInMonth_ge _ _
  have hL31 : daysInMonth (prevYear orig) (prevMonth orig) ≤ 31 := daysInMonth_le _ _
  have hM31 : daysInMonth orig.year orig.month ≤ 31 := daysInMonth_le _ _
  have htle : stopDay orig ≤ orig.day := stopDay_le_day orig
  have htL : stopDay orig ≤ daysInMonth (prevYear orig) (prevMonth orig) := stopDay_le_len orig
  have ht1 : 1 ≤ stopDay orig := stopDay_pos orig hd1
  by_cases hcd : 2 ≤ orig.day
  · have hpred : orig.pred = ⟨orig.year, orig.month, orig.day - 1⟩ := by
      unfold Date.pred
      rw [if_pos hcd]
    rw [hpred]
    constructor
    · refine Or.inl ⟨rfl, rfl, ?_, ?_⟩
      · show 1 ≤ orig.day - 1
        omega
      · show orig.day - 1 + 1 ≤ orig.day
        omega
    · rw [walkDist_same orig orig.year (orig.day - 1)]
      omega
  · have hday : orig.day = 1 := by omega
    by_cases hcm : 2 ≤ orig.month
    · have hpy : prevYear orig = orig.year := by
        unfold prevYear
        rw [if_pos hcm]
      have hpm : prevMonth orig = orig.month - 1 := by
        unfold prevMonth
        rw [if_pos hcm]
      have hpred : orig.pred =
          ⟨orig.year, orig.month - 1, daysInMonth orig.year (orig.month - 1)⟩ := by
        unfold Date.pred
        rw [if_neg (by omega), if_pos hcm]
      have hLeq : daysInMonth orig.year (orig.month - 1) =
          daysInMonth (prevYear orig) (prevMonth orig) := by
        rw [hpy, hpm]
      rw [hpred]
      constructor
      · refine Or.inr ⟨?_, ?_, ?_, ?_⟩
        · show orig.year = prevYear orig
          omega
        · show orig.month - 1 = prevMonth orig
          omega
        · show stopDay orig ≤ daysInMonth orig.year (orig.month - 1)
          omega
        · show daysInMonth orig.year (orig.month - 1) ≤
            daysInMonth (prevYear orig) (prevMonth orig)
          omega
      · have hne : orig.month - 1 ≠ orig.month := by omega
        rw [walkDist_other orig orig.year (orig.month - 1)
          (daysInMonth orig.year (orig.month - 1)) hne]
        omega
    · have hom1 : orig.month = 1 := by omega
      have hpy : prevYear orig = orig.year - 1 := by
        unfold prevYear
        rw [if_neg (by omega)]
      have hpm : prevMonth orig = 12 := by
        unfold prevMonth
        rw [if_neg (by omega)]
      have hpred : orig.pred = ⟨orig.year - 1, 12, 31⟩ := by
        unfold Date.pred
        rw [if_neg (by omega), if_neg (by omega)]
      have hL12 : daysInMonth (prevYear orig) (prevMonth orig) = 31 := by
        rw [hpm, daysInMonth_december]
      rw [hpred]
      constructor
      · refine Or.inr ⟨?_, ?_, ?_, ?_⟩
        · show orig.year - 1 = prevYear orig
          omega
        · show 12 = prevMonth orig
          omega
        · show stopDay orig ≤ 31
          omega
        · show 31 ≤ daysInMonth (prevYear orig) (prevMonth orig)
          omega
      · have hne : (12 : Nat) ≠ orig.month := by omega
        rw [walkDist_other orig (orig.year - 1) 12 31 hne]
        omega

theorem subtract_one_month_eq_target (d : Date) (hv : d.Valid) :
    subtract_one_month d = somTarget d := by
  obtain ⟨hc, hd⟩ := walkCand_pred d hv
  exact subtractOneMonthAux_eq d hv 62 d.pred hc hd

theorem somTarget_valid (d : Date) (hv : d.Valid) : (somTarget d).Valid := by
  obtain ⟨hb1, hb2⟩ := prevMonth_bounds d hv
  obtain ⟨hm1, hm12, hd1, hdM⟩ := hv
  refine ⟨?_, ?_, ?_, ?_⟩
  · show 1 ≤ prevMonth d
    exact hb1
  · show prevMonth d ≤ 12
    exact hb2
  · show 1 ≤ stopDay d
    exact stopDay_pos d hd1
  · show stopDay d ≤ daysInMonth (prevYear d) (prevMonth d)
    exact stopDay_le_len d

theorem somTarget_lt (d : Date) (hv : d.Valid) : (somTarget d).Lt d := by
  obtain ⟨hm1, hm12, hd1, hdM⟩ := hv
  unfold Date.Lt
  have hTy : (somTarget d).year = prevYear d := rfl
  have hTm : (somTarget d).month = prevMonth d := rfl
  rw [hTy, hTm]
  by_cases hm2 : 2 ≤ d.month
  · have hpy : prevYear d = d.year := by
      unfold prevYear
      rw [if_pos hm2]
    have hpm : prevMonth d = d.month - 1 := by
      unfold prevMonth
      rw [if_pos hm2]
    exact Or.inr ⟨hpy, Or.inl (by omega)⟩
  · have hpy : prevYear d = d.year - 1 := by
      unfold prevYear
      rw [if_neg (by omega)]
    exact Or.inl (by omega)

theorem somTarget_latest (d : Date) (hv : d.Valid) (S : Date) (hS : S.Valid)
    (h1 : (somTarget d).Lt S) (h2 : S.Lt d) : S.month = d.month ∨ d.day < S.day := by
  obtain ⟨hm1, hm12, hd1, hdM⟩ := hv
  obtain ⟨hSm1, hSm12, hSd1, hSdM⟩ := hS
  have hTy : (somTarget d).year = prevYear d := rfl
  have hTm : (somTarget d).month = prevMonth d := rfl
  have hTd : (somTarget d).day = stopDay d := rfl
  unfold Date.Lt at h1 h2
  rw [hTy, hTm, hTd] at h1
  by_cases hm2 : 2 ≤ d.month
  · have hpy : prevYear d = d.year := by
      unfold prevYear
      rw [if_pos hm2]
    have hpm : prevMonth d = d.month - 1 := by
      unfold prevMonth
      rw [if_pos hm2]
    rcases h1 with h1a | ⟨h1y, h1m | ⟨h1m, h1d⟩⟩
    · rcases h2 with h2a | ⟨h2y, h2b⟩ <;> omega
    · rcases h2 with h2a | ⟨h2y, h2m | ⟨h2m, h2d⟩⟩ <;> omega
    · rcases h2 with h2a | ⟨h2y, h2m | ⟨h2m, h2d⟩⟩
      · omega
      · right
        have e1 : S.year = prevYear d := by omega
        have e2 : S.month = prevMonth d := by omega
        have hkey : S.day ≤ daysInMonth (prevYear d) (prevMonth d) := by
          rw [← e1, ← e2]
          exact hSdM
        exact stopDay_lt d S.day h1d hkey
      · omega
  · have hpy : prevYear d = d.year - 1 := by
      unfold prevYear
      rw [if_neg (by omega)]
    have hpm : prevMonth d = 12 := by
      unfold prevMonth
      rw [if_neg (by omega)]
    rcases h1 with h1a | ⟨h1y, h1m | ⟨h1m, h1d⟩⟩
    · rcases h2 with h2a | ⟨h2y, h2m | ⟨h2m, h2d⟩⟩ <;> omega
    · omega
    · rcases h2 with h2a | ⟨h2y, h2b⟩
      · right
        have e1 : S.year = prevYear d := by omega
        have e2 : S.month = prevMonth d := by omega
        have hkey : S.day ≤ daysInMonth (prevYear d) (prevMonth d) := by
          rw [← e1, ← e2]
          exact hSdM
        exact stopDay_lt d S.day h1d hkey
      · omega

theorem prevYear_bounds (d : Date) (hv : d.Valid) (hy1 : 1 ≤ d.year)
    (hnm : ¬(d.year = 1 ∧ d.month = 1)) :
    1 ≤ prevYear d ∧ prevYear d ≤ d.year := by
  obtain ⟨hm1, hm12, _, _⟩ := hv
  unfold prevYear
  split <;> omega

theorem subtractOneMonthAuxOv_eq (orig : Date) (hv : orig.Valid) (_hy1 : 1 ≤ orig.year)
    (hnm : ¬(orig.year = 1 ∧ orig.month = 1)) :
    ∀ fuel cur, walkCand orig cur → walkDist orig cur < fuel →
      subtractOneMonthAuxOv orig fuel cur = some (somTarget orig) := by
  intro fuel
  induction fuel with
  | zero => intro cur _ hd; omega
  | succ n ih =>
    intro cur hc hd
    obtain ⟨hm1, hm12, hd1, hdM⟩ := hv
    have hL28 : 28 ≤ daysInMonth (prevYear orig) (prevMonth orig) := daysInMonth_ge _ _
    have hL31 : daysInMonth (prevYear orig) (prevMonth orig) ≤ 31 := daysInMonth_le _ _
    have hM31 : daysInMonth orig.year orig.month ≤ 31 := daysInMonth_le _ _
    have htle : stopDay orig ≤ orig.day := stopDay_le_day orig
    have htL : stopDay orig ≤ daysInMonth (prevYear orig) (prevMonth orig) := stopDay_le_len orig
    have ht1 : 1 ≤ stopDay orig := stopDay_pos orig hd1
    rcases hc with ⟨hy, hm, hc1, hc2⟩ | ⟨hy, hm, hc1, hc2⟩
    · -- still inside the original month: the loop keeps stepping back
      have hdcur : walkDist orig cur =
          cur.day + (daysInMonth (prevYear orig) (prevMonth orig) - stopDay orig) := by
        unfold walkDist
        rw [if_pos hm]
      have hpov : cur.predOv = some cur.pred := by
        unfold Date.predOv
        rw [if_neg (fun hmin => hnm ⟨hy ▸ hmin.1, hm ▸ hmin.2.1⟩)]
      rw [subtractOneMonthAuxOv, if_pos (Or.inl hm), hpov]
      by_cases hcd : 2 ≤ cur.day
      · have hpred : cur.pred = ⟨cur.year, cur.month, cur.day - 1⟩ := by
          unfold Date.pred
          rw [if_pos hcd]
        rw [hpred]
        show subtractOneMonthAuxOv orig n ⟨cur.year, cur.month, cur.day - 1⟩ =
          some (somTarget orig)
        apply ih
        · refine Or.inl ⟨hy, hm, ?_, ?_⟩
          · show 1 ≤ cur.day - 1
            omega
          · show cur.day - 1 + 1 ≤ orig.day
            omega
        · have hwd : walkDist orig ⟨cur.year, cur.month, cur.day - 1⟩ =
              (cur.day - 1) + (daysInMonth (prevYear orig) (prevMonth orig) - stopDay orig) := by
            rw [hm]
            exact walkDist_same orig cur.year (cur.day - 1)
          omega
      · -- at day 1 of the original month: step into the previous month
        have hcday : cur.day = 1 := by omega
        by_cases hcm : 2 ≤ cur.month
        · have hocm : 2 ≤ orig.month := hm ▸ hcm
          have hpy : prevYear orig = orig.year := by
            unfold prevYear
            rw [if_pos hocm]
          have hpm : prevMonth orig = orig.month - 1 := by
            unfold prevMonth
            rw [if_pos hocm]
          have hpred : cur.pred =
              ⟨cur.year, cur.month - 1, daysInMonth cur.year (cur.month - 1)⟩ := by
            unfold Date.pred
            rw [if_neg (by omega), if_pos hcm]
          have hLeq : daysInMonth cur.year (cur.month - 1) =
              daysInMonth (prevYear orig) (prevMonth orig) := by
            rw [hpy, hpm, hy, hm]
          rw [hpred]
          show subtractOneMonthAuxOv orig n
            ⟨cur.year, cur.month - 1, daysInMonth cur.year (cur.month - 1)⟩ =
            some (somTarget orig)
          apply ih
          · refine Or.inr ⟨?_, ?_, ?_, ?_⟩
            · show cur.year = prevYear orig
              omega
            · show cur.month - 1 = prevMonth orig
              omega
            · show stopDay orig ≤ daysInMonth cur.year (cur.month - 1)
              omega
            · show daysInMonth cur.year (cur.month - 1) ≤
                daysInMonth (prevYear orig) (prevMonth orig)
              omega
          · have hne : cur.month - 1 ≠ orig.month := by omega
            rw [walkDist_other orig cur.year (cur.month - 1)
              (daysInMonth cur.year (cur.month - 1)) hne]
            omega
        · -- January: step into December of the previous year
          have hcm1 : cur.month = 1 := by omega
          have hom1 : orig.month = 1 := by omega
          have hpy : prevYear orig = orig.year - 1 := by
            unfold prevYear
            rw [if_neg (by omega)]
          have hpm : prevMonth orig = 12 := by
            unfold prevMonth
            rw [if_neg (by omega)]
          have hpred : cur.pred = ⟨cur.year - 1, 12, 31⟩ := by
            unfold Date.pred
            rw [if_neg (by omega), if_neg (by omega)]
          have hL12 : daysInMonth (prevYear orig) (prevMonth orig) = 31 := by
            rw [hpm, daysInMonth_december]
          rw [hpred]
          show subtractOneMonthAuxOv orig n ⟨cur.year - 1, 12, 31⟩ = some (somTarget orig)
          apply ih
          · refine Or.inr ⟨?_, ?_, ?_, ?_⟩
            · show cur.year - 1 = prevYear orig
              omega
            · show 12 = prevMonth orig
              omega
            · show stopDay orig ≤ 31
              omega
            · show 31 ≤ daysInMonth (prevYear orig) (prevMonth orig)
              omega
          · have hne : (12 : Nat) ≠ orig.month := by omega
            rw [walkDist_other orig (cur.year - 1) 12 31 hne]
            omega
    · -- inside the previous month
      have hpmne : prevMonth orig ≠ orig.month := prevMonth_ne orig ⟨hm1, hm12, hd1, hdM⟩
      have hmne : cur.month ≠ orig.month := hm ▸ hpmne
      have hdcur : walkDist orig cur = cur.day - stopDay orig := by
        unfold walkDist
        rw [if_neg hmne]
      by_cases hstop : cur.day = stopDay orig
      · -- reached the stopping day: the guard is false, the loop returns
        rw [subtractOneMonthAuxOv, if_neg]
        · have hcur : cur = somTarget orig := by
            unfold somTarget
            cases cur
            simp only at hy hm hstop
            rw [hy, hm, hstop]
          rw [hcur]
        · push_neg
          exact ⟨hmne, by omega⟩
      · -- still above the stopping day: guard is true via the day comparison
        have hgt : orig.day < cur.day := stopDay_lt orig cur.day (by omega) hc2
        have hcd : 2 ≤ cur.day := by omega
        have hpov : cur.predOv = some cur.pred := by
          unfold Date.predOv
          rw [if_neg (fun hmin => by omega)]
        rw [subtractOneMonthAuxOv, if_pos (Or.inr hgt), hpov]
        have hpred : cur.pred = ⟨cur.year, cur.month, cur.day - 1⟩ := by
          unfold Date.pred
          rw [if_pos hcd]
        rw [hpred]
        show subtractOneMonthAuxOv orig n ⟨cur.year, cur.month, cur.day - 1⟩ =
          some (somTarget orig)
        apply ih
        · refine Or.inr ⟨hy, hm, ?_, ?_⟩
          · show stopDay orig ≤ cur.day - 1
            omega
          · show cur.day - 1 ≤ daysInMonth (prevYear orig) (prevMonth orig)
            omega
        · rw [walkDist_other orig cur.year cur.month (cur.day - 1) hmne]
          omega

theorem subtract_one_month_checked_eq (d : Date) (hv : d.Valid) (hy1 : 1 ≤ d.year)
    (hnm : ¬(d.year = 1 ∧ d.month = 1)) :
    subtract_one_month_checked d = some (somTarget d) := by
  have hpov : d.predOv = some d.pred := by
    unfold Date.predOv
    rw [if_neg (fun hmin => hnm ⟨hmin.1, hmin.2.1⟩)]
  unfold subtract_one_month_checked
  rw [hpov]
  show subtractOneMonthAuxOv d 62 d.pred = some (somTarget d)
  obtain ⟨hc, hd⟩ := walkCand_pred d hv
  exact subtractOneMonthAuxOv_eq d hv hy1 hnm 62 d.pred hc hd

theorem subtract_one_month_checked_agrees (d : Date) (hv : d.Valid) (hy1 : 1 ≤ d.year)
    (hnm : ¬(d.year = 1 ∧ d.month = 1)) :
    subtract_one_month_checked d = some (subtract_one_month d) := by
  rw [subtract_one_month_checked_eq d hv hy1 hnm, subtract_one_month_eq_target d hv]

theorem subtractOneMonthAuxOv_min (orig : Date) (_h1 : orig.year = 1) (hm : orig.month = 1) :
    ∀ fuel k, 1 ≤ k → k ≤ fuel →
      subtractOneMonthAuxOv orig fuel ⟨1, 1, k⟩ = none := by
  intro fuel
  induction fuel with
  | zero => intro k h1k hkf; omega
  | succ n ih =>
    intro k h1k hkf
    rw [subtractOneMonthAuxOv, if_pos (Or.inl (show (1 : Nat) = orig.month by omega))]
    by_cases hk : k = 1
    · subst hk
      have hpov : (⟨1, 1, 1⟩ : Date).predOv = none := by
        unfold Date.predOv
        rw [if_pos ⟨rfl, rfl, rfl⟩]
      rw [hpov]
    · have hpov : (⟨1, 1, k⟩ : Date).predOv = some ⟨1, 1, k - 1⟩ := by
        unfold Date.predOv
        rw [if_neg (fun hmin => hk hmin.2.2)]
        unfold Date.pred
        rw [if_pos (show 2 ≤ (⟨1, 1, k⟩ : Date).day by show 2 ≤ k; omega)]
      rw [hpov]
      show subtractOneMonthAuxOv orig n ⟨1, 1, k - 1⟩ = none
      exact ih (k - 1) (by omega) (by omega)

theorem subtract_one_month_checked_jan1 (d : Date) (hv : d.Valid) (hy : d.year = 1)
    (hm : d.month = 1) : subtract_one_month_checked d = none := by
  obtain ⟨hm1, hm12, hd1, hdM⟩ := hv
  have h31 : daysInMonth d.year d.month ≤ 31 := daysInMonth_le _ _
  unfold subtract_one_month_checked
  by_cases hdd : d.day = 1
  · have hpov : d.predOv = none := by
      unfold Date.predOv
      rw [if_pos ⟨hy, hm, hdd⟩]
    rw [hpov]
  · have hpov : d.predOv = some d.pred := by
      unfold Date.predOv
      rw [if_neg (fun hmin => hdd hmin.2.2)]
    have hpred : d.pred = ⟨1, 1, d.day - 1⟩ := by
      unfold Date.pred
      rw [if_pos (by omega), hy, hm]
    rw [hpov, hpred]
    show subtractOneMonthAuxOv d 62 ⟨1, 1, d.day - 1⟩ = none
    exact subtractOneMonthAuxOv_min d hy hm 62 (d.day - 1) (by omega) (by omega)

/-- C2 counterexample: on Python's bounded dates the claim "for every date
D, subtract_one_month(D) returns the latest date R strictly before D ..."
fails: for the representable date 0001-01-15 the backward walk crosses
`date.min` and the program raises `OverflowError` (`none`) instead of
returning a date. -/
theorem subtract_one_month_claim_counterexample :
    Date.Representable ⟨1, 1, 15⟩ ∧
    subtract_one_month_checked ⟨1, 1, 15⟩ = none := by
  decide

/-- C2 (amended): for every representable date `D` (years 1..9999) outside
January of year 1, `subtract_one_month D` returns a representable date `R`
strictly before `D`, reached by walking backward one day at a time, whose
month differs from `D`'s and whose day does not exceed `D`'s day — and `R`
is the latest such date: every representable date strictly between `R` and
`D` violates one of the two conditions.  For `D` in January of year 1 the
walk crosses `date.min` and Python raises `OverflowError` instead of
returning a date.  In particular `subtract_one_month 2024-03-31 = 2024-02-29`
and `subtract_one_month 2023-03-31 = 2023-02-28`. -/
theorem subtract_one_month_correct :
    (∀ d : Date, d.Representable → ¬(d.year = 1 ∧ d.month = 1) →
      ∃ r : Date, subtract_one_month_checked d = some r ∧
        r.Representable ∧ r.Lt d ∧ r.month ≠ d.month ∧ r.day ≤ d.day ∧
        (∀ S : Date, S.Representable → r.Lt S → S.Lt d →
          S.month = d.month ∨ d.day < S.day)) ∧
    (∀ d : Date, d.Representable → d.year = 1 → d.month = 1 →
      subtract_one_month_checked d = none) ∧
    subtract_one_month_checked ⟨2024, 3, 31⟩ = some ⟨2024, 2, 29⟩ ∧
    subtract_one_month_checked ⟨2023, 3, 31⟩ = some ⟨2023, 2, 28⟩ := by
  refine ⟨?_, ?_, by decide, by decide⟩
  · intro d hrep hnm
    obtain ⟨hv, hy1, hy2⟩ := hrep
    obtain ⟨hpy1, hpy2⟩ := prevYear_bounds d hv hy1 hnm
    refine ⟨somTarget d, subtract_one_month_checked_eq d hv hy1 hnm,
      ⟨somTarget_valid d hv, ?_, ?_⟩, somTarget_lt d hv, ?_, ?_, ?_⟩
    · show 1 ≤ prevYear d
      omega
    · show prevYear d ≤ 9999
      omega
    · show prevMonth d ≠ d.month
      exact prevMonth_ne d hv
    · show stopDay d ≤ d.day
      exact stopDay_le_day d
    · intro S hS h1 h2
      exact somTarget_latest d hv S hS.1 h1 h2
  · intro d hrep hy hm
    exact subtract_one_month_checked_jan1 d hrep.1 hy hm

/-- Witness for C2 (amended): both branches applied at concrete dates —
the normal result at 2024-05-31 and the overflow at 0001-01-20. -/
theorem subtract_one_month_correct_witness :
    (⟨2024, 4, 30⟩ : Date).month ≠ (⟨2024, 5, 31⟩ : Date).month ∧
    (⟨2024, 4, 30⟩ : Date).day ≤ (⟨2024, 5, 31⟩ : Date).day ∧
    subtract_one_month_checked ⟨2024, 5, 31⟩ = some ⟨2024, 4, 30⟩ ∧
    subtract_one_month_checked ⟨1, 1, 20⟩ = none := by
  obtain ⟨r, hr, _, _, hm, hd, _⟩ :=
    subtract_one_month_correct.1 ⟨2024, 5, 31⟩ (by decide) (by decide)
  have hval : subtract_one_month_checked ⟨2024, 5, 31⟩ = some ⟨2024, 4, 30⟩ := by decide
  rw [hval] at hr
  injection hr with hr2
  subst hr2
  exact ⟨hm, hd, hval,
    subtract_one_month_correct.2.1 ⟨1, 1, 20⟩ (by decide) (by decide) (by decide)⟩

/-- C10 counterexample: the claim that the backward-walking loop always
"reaches a date whose month differs from the input's month ..." fails on
the representable date 0001-01-31: the walk must cross `date.min` first and
the program raises `OverflowError` (`none`) before any stop condition is
reached. -/
theorem subtract_one_month_termination_counterexample :
    Date.Representable ⟨1, 1, 31⟩ ∧
    subtract_one_month_checked ⟨1, 1, 31⟩ = none := by
  decide

/-- C10 (amended): the backward-walking loop of `subtract_one_month` never
runs unboundedly on a representable date: the candidate strictly decreases
by one day per iteration, and within at most 62 one-day steps the loop
either stops normally at a date whose month differs from the input's and
whose day does not exceed the input's (every representable input outside
January of year 1), or — for inputs in January of year 1 — crosses
`date.min`, where Python raises `OverflowError`.  Hence running the loop
with any fuel of at least 62 yields the same result as the program. -/
theorem subtract_one_month_terminates :
    ∀ d : Date, d.Representable →
      (∀ fuel : Nat, 62 ≤ fuel →
        (match d.predOv with
         | some c => subtractOneMonthAuxOv d fuel c
         | none => none) = subtract_one_month_checked d) ∧
      (¬(d.year = 1 ∧ d.month = 1) →
        ∃ r : Date, subtract_one_month_checked d = some r ∧
          ¬(r.month = d.month ∨ r.day > d.day)) ∧
      ((d.year = 1 ∧ d.month = 1) → subtract_one_month_checked d = none) := by
  intro d hrep
  obtain ⟨hv, hy1, hy2⟩ := hrep
  refine ⟨?_, ?_, ?_⟩
  · intro fuel hf
    by_cases hnm : d.year = 1 ∧ d.month = 1
    · obtain ⟨hy, hm⟩ := hnm
      obtain ⟨hm1, hm12, hd1, hdM⟩ := hv
      have h31 : daysInMonth d.year d.month ≤ 31 := daysInMonth_le _ _
      by_cases hdd : d.day = 1
      · have hpov : d.predOv = none := by
          unfold Date.predOv
          rw [if_pos ⟨hy, hm, hdd⟩]
        rw [hpov, subtract_one_month_checked_jan1 d ⟨hm1, hm12, hd1, hdM⟩ hy hm]
      · have hpov : d.predOv = some d.pred := by
          unfold Date.predOv
          rw [if_neg (fun hmin => hdd hmin.2.2)]
        have hpred : d.pred = ⟨1, 1, d.day - 1⟩ := by
          unfold Date.pred
          rw [if_pos (by omega), hy, hm]
        rw [hpov, hpred]
        show subtractOneMonthAuxOv d fuel ⟨1, 1, d.day - 1⟩ = subtract_one_month_checked d
        rw [subtractOneMonthAuxOv_min d hy hm fuel (d.day - 1) (by omega) (by omega),
          subtract_one_month_checked_jan1 d ⟨hm1, hm12, hd1, hdM⟩ hy hm]
    · have hpov : d.predOv = some d.pred := by
        unfold Date.predOv
        rw [if_neg (fun hmin => hnm ⟨hmin.1, hmin.2.1⟩)]
      rw [hpov]
      show subtractOneMonthAuxOv d fuel d.pred = subtract_one_month_checked d
      obtain ⟨hc, hdist⟩ := walkCand_pred d hv
      rw [subtractOneMonthAuxOv_eq d hv hy1 hnm fuel d.pred hc (by omega),
        subtract_one_month_checked_eq d hv hy1 hnm]
  · intro hnm
    refine ⟨somTarget d, subtract_one_month_checked_eq d hv hy1 hnm, ?_⟩
    push_neg
    constructor
    · show prevMonth d ≠ d.month
      exact prevMonth_ne d hv
    · show stopDay d ≤ d.day
      exact stopDay_le_day d
  · intro hnm
    exact subtract_one_month_checked_jan1 d hv hnm.1 hnm.2

/-- Witness for C10 (amended): fuel-irrelevance at 2024-01-15 with fuel 100,
and the overflow outcome at 0001-01-02. -/
theorem subtract_one_month_terminates_witness :
    (match (⟨2024, 1, 15⟩ : Date).predOv with
     | some c => subtractOneMonthAuxOv ⟨2024, 1, 15⟩ 100 c
     | none => none) = subtract_one_month_checked ⟨2024, 1, 15⟩ ∧
    subtract_one_month_checked ⟨1, 1, 2⟩ = none :=
  ⟨(subtract_one_month_terminates ⟨2024, 1, 15⟩ (by decide)).1 100 (by decide),
   (subtract_one_month_terminates ⟨1, 1, 2⟩ (by decide)).2.2 (by decide)⟩

/-- A conditional filter stage only ever removes rows. -/
theorem mem_of_ite_filter {α : Type} (c : Prop) [Decidable c] (p : α → Bool)
    (l : List α) (x : α) (h : x ∈ if c then l.filter p else l) : x ∈ l := by
  split at h
  · exact List.mem_of_mem_filter h
  · exact h

/-- A conditional application of any shrinking stage only ever removes rows. -/
theorem mem_of_ite_apply {α : Type} (c : Prop) [Decidable c] (f : List α → List α)
    (hf : ∀ (l : List α) (x : α), x ∈ f l → x ∈ l)
    (l : List α) (x : α) (h : x ∈ if c then f l else l) : x ∈ l := by
  split at h
  · exact hf l x h
  · exact h

theorem mem_filter_by_offer_id (l : List Enrollment) (v : String) (x : Enrollment)
    (h : x ∈ filter_by_offer_id l v) : x ∈ l :=
  List.mem_of_mem_filter h

theorem mem_insertByEmail (x a : String × Nat) (l : List (String × Nat)) :
    a ∈ insertByEmail x l ↔ a = x ∨ a ∈ l := by
  induction l with
  | nil => simp [insertByEmail]
  | cons y ys ih =>
    unfold insertByEmail
    split
    · simp
    · simp only [List.mem_cons, ih]
      tauto

theorem mem_sortByEmail (a : String × Nat) (l : List (String × Nat)) :
    a ∈ sortByEmail l ↔ a ∈ l := by
  induction l with
  | nil => simp [sortByEmail]
  | cons y ys ih =>
    unfold sortByEmail at *
    simp only [List.foldr_cons, mem_insertByEmail, ih, List.mem_cons]

theorem truthy_some (v : String) (h : v ≠ "") : truthy (some v) = true := by
  have hb : v.isEmpty = false := by
    cases hb : v.isEmpty
    · rfl
    · exact absurd ((String.isEmpty_iff v).mp hb) h
  show (!v.isEmpty) = true
  rw [hb]
  rfl

theorem filter_cons_false {α : Type} (p : α → Bool) (a : α) (l : List α)
    (h : p a = false) : (a :: l).filter p = l.filter p := by
  simp [List.filter_cons, h]

/-- C1: an enrollment with `is_consent_granted=false` never appears in the
`completed_courses` output and never contributes to the `enrollment_count`
or `course_completion_count` annotations: adding such a row changes none of
the three outputs, each count is computed over the consent-filtered rows
only, and every row of the `completed_courses` output is witnessed by a
consent-granted passed enrollment of the enterprise. -/
theorem consent_invariant (e : Enrollment) (hc : e.is_consent_granted = false) :
    (∀ (es : List Enrollment) (eid : String),
      completed_courses_queryset (e :: es) eid = completed_courses_queryset es eid) ∧
    (∀ (es : List Enrollment) (uid : Nat),
      enrollment_count_value (e :: es) uid = enrollment_count_value es uid) ∧
    (∀ (es : List Enrollment) (uid : Nat),
      course_completion_count_value (e :: es) uid = course_completion_count_value es uid) ∧
    (∀ (es : List Enrollment) (eid : String) (p : String × Nat),
      p ∈ completed_courses_queryset es eid →
      ∃ e2, e2 ∈ es ∧ e2.is_consent_granted = true ∧ e2.has_passed = true ∧
        e2.enterprise_customer_uuid = eid ∧ e2.user_email = p.1) := by
  refine ⟨?_, ?_, ?_, ?_⟩
  · intro es eid
    simp only [completed_courses_queryset]
    rw [filter_cons_false _ _ _ (by simp [hc])]
  · intro es uid
    simp only [enrollment_count_value]
    rw [filter_cons_false _ _ _ (by simp [hc])]
  · intro es uid
    simp only [course_completion_count_value]
    rw [filter_cons_false _ _ _ (by simp [hc])]
  · intro es eid p hp
    simp only [completed_courses_queryset] at hp
    rw [mem_sortByEmail] at hp
    simp only [List.mem_map] at hp
    obtain ⟨em, hem, hpe⟩ := hp
    rw [List.mem_dedup] at hem
    simp only [List.mem_map] at hem
    obtain ⟨e2, he2, hee⟩ := hem
    rw [List.mem_filter] at he2
    obtain ⟨he2es, he2p⟩ := he2
    simp only [Bool.and_eq_true, beq_iff_eq] at he2p
    subst hpe
    exact ⟨e2, he2es, he2p.2, he2p.1.2, he2p.1.1, hee⟩

/-- Witness for C1: the invariance applied to a concrete consent-denied
passed enrollment. -/
theorem consent_invariant_witness :
    noConsentEnrollment.is_consent_granted = false ∧
    completed_courses_queryset [noConsentEnrollment] "ent-1" =
      completed_courses_queryset [] "ent-1" ∧
    enrollment_count_value [noConsentEnrollment] 10 = enrollment_count_value [] 10 ∧
    course_completion_count_value [noConsentEnrollment] 10 =
      course_completion_count_value [] 10 :=
  ⟨by decide,
   (consent_invariant noConsentEnrollment (by decide)).1 [] "ent-1",
   (consent_invariant noConsentEnrollment (by decide)).2.1 [] 10,
   (consent_invariant noConsentEnrollment (by decide)).2.2.1 [] 10⟩

/-- C7: when the learner listing is requested with `extra_fields` containing
`enrollment_count` (resp. `course_completion_count`), every returned learner
carries that annotation (never absent), its value is the count of distinct
consent-granted (resp. consent-granted passed) enrollments of that learner,
and a learner with no qualifying enrollments is annotated `0`. -/
theorem extra_fields_annotation_counts :
    ∀ (now : Int) (es : List Enrollment) (qp : LearnerQueryParams) (ls : List Learner)
      (al : AnnotatedLearner), al ∈ learner_get_queryset now es qp ls →
      (qp.extra_fields.contains "enrollment_count" = true →
        al.enrollment_count =
          some (enrollment_count_value es al.learner.enterprise_user_id) ∧
        al.enrollment_count.isSome = true ∧
        (es.filter (fun e => e.enterprise_user_id == al.learner.enterprise_user_id &&
            e.is_consent_granted) = [] →
          al.enrollment_count = some 0)) ∧
      (qp.extra_fields.contains "course_completion_count" = true →
        al.course_completion_count =
          some (course_completion_count_value es al.learner.enterprise_user_id) ∧
        al.course_completion_count.isSome = true ∧
        (es.filter (fun e => e.enterprise_user_id == al.learner.enterprise_user_id &&
            e.has_passed && e.is_consent_granted) = [] →
          al.course_completion_count = some 0)) := by
  intro now es qp ls al hal
  simp only [learner_get_queryset, List.mem_map] at hal
  obtain ⟨l, hl, rfl⟩ := hal
  constructor
  · intro hef
    refine ⟨by simp only [if_pos hef], by simp only [if_pos hef, Option.isSome_some], ?_⟩
    intro hz
    simp only [if_pos hef]
    simp [enrollment_count_value, hz]
  · intro hef
    refine ⟨by simp only [if_pos hef], by simp only [if_pos hef, Option.isSome_some], ?_⟩
    intro hz
    simp only [if_pos hef]
    simp [course_completion_count_value, hz]

/-- Witness for C7: both annotations on a learner with no enrollments are
present and equal to zero. -/
theorem extra_fields_annotation_counts_witness :
    (⟨baseLearner, some 0, some 0⟩ : AnnotatedLearner).enrollment_count =
      some (enrollment_count_value []
        (⟨baseLearner, some 0, some 0⟩ : AnnotatedLearner).learner.enterprise_user_id) ∧
    (⟨baseLearner, some 0, some 0⟩ : AnnotatedLearner).course_completion_count = some 0 := by
  have h := extra_fields_annotation_counts 0 [] annotQP [baseLearner]
    ⟨baseLearner, some 0, some 0⟩ (by decide)
  exact ⟨(h.1 (by decide)).1, (h.2 (by decide)).2.2 (by decide)⟩

/-- A learner list inside a two-branch conditional filter only shrinks. -/
theorem mem_of_ite_ite_filter {α : Type} (c1 c2 : Prop) [Decidable c1] [Decidable c2]
    (p1 p2 : α → Bool) (l : List α) (x : α)
    (h : x ∈ if c1 then l.filter p1 else if c2 then l.filter p2 else l) : x ∈ l := by
  split at h
  · exact List.mem_of_mem_filter h
  · exact mem_of_ite_filter c2 p2 l x h

/-- C5 counterexample: the claim that each consent-granted enrollment
satisfies *exactly one* of the `active_courses=true` / `active_courses=false`
conditions fails when `course_end_date` equals `now`: the filters use `>=`
and `<=`, so this enrollment satisfies both, and the learner it belongs to
is returned by both listings. -/
theorem active_courses_claim_counterexample :
    boundaryEnrollment.is_consent_granted = true ∧
    activeCoursePred 0 boundaryEnrollment = true ∧
    inactiveCoursePred 0 boundaryEnrollment = true ∧
    learner_get_queryset 0 [boundaryEnrollment] ⟨none, some "true", none, []⟩ [baseLearner] =
      [⟨baseLearner, none, none⟩] ∧
    learner_get_queryset 0 [boundaryEnrollment] ⟨none, some "false", none, []⟩ [baseLearner] =
      [⟨baseLearner, none, none⟩] := by
  decide

/-- C5 (amended): over the consent-granted subset the two `active_courses`
filters jointly cover every enrollment with a non-null `course_end_date` —
at least one of the two conditions holds, and both hold exactly when
`course_end_date` equals `now` (the filters use `>=` resp. `<=`); an
enrollment lacking consent satisfies neither condition and never witnesses
membership in either learner listing. -/
theorem active_courses_partition :
    ∀ (now : Int) (e : Enrollment),
      (e.is_consent_granted = false →
        activeCoursePred now e = false ∧ inactiveCoursePred now e = false) ∧
      (∀ t : Int, e.is_consent_granted = true → e.course_end_date = some t →
        (activeCoursePred now e = true ∨ inactiveCoursePred now e = true) ∧
        ((activeCoursePred now e = true ∧ inactiveCoursePred now e = true) ↔ t = now)) ∧
      (∀ (es : List Enrollment) (ls : List Learner) (qp : LearnerQueryParams)
        (al : AnnotatedLearner), qp.active_courses = some "true" →
        al ∈ learner_get_queryset now es qp ls →
        ∃ e2, e2 ∈ es ∧ e2.enterprise_user_id = al.learner.enterprise_user_id ∧
          e2.is_consent_granted = true ∧ endDateGe now e2 = true) ∧
      (∀ (es : List Enrollment) (ls : List Learner) (qp : LearnerQueryParams)
        (al : AnnotatedLearner), qp.active_courses = some "false" →
        al ∈ learner_get_queryset now es qp ls →
        ∃ e2, e2 ∈ es ∧ e2.enterprise_user_id = al.learner.enterprise_user_id ∧
          e2.is_consent_granted = true ∧ endDateLe now e2 = true) := by
  intro now e
  refine ⟨?_, ?_, ?_, ?_⟩
  · intro hc
    simp [activeCoursePred, inactiveCoursePred, hc]
  · intro t hc he
    have ha : activeCoursePred now e = decide (now ≤ t) := by
      simp [activeCoursePred, endDateGe, hc, he]
    have hi : inactiveCoursePred now e = decide (t ≤ now) := by
      simp [inactiveCoursePred, endDateLe, hc, he]
    rw [ha, hi]
    constructor
    · rcases Int.le_total now t with h | h
      · exact Or.inl (by simp [h])
      · exact Or.inr (by simp [h])
    · constructor
      · intro ⟨h1, h2⟩
        simp only [decide_eq_true_eq] at h1 h2
        omega
      · intro h
        subst h
        simp
  · intro es ls qp al hq hal
    simp only [learner_get_queryset, List.mem_map] at hal
    obtain ⟨l, hl, rfl⟩ := hal
    replace hl := mem_of_ite_ite_filter _ _ _ _ _ _ hl
    rw [hq] at hl
    simp only [if_pos (by rfl : ((some "true" == some "true") = true))] at hl
    rw [List.mem_filter] at hl
    obtain ⟨_, hpred⟩ := hl
    rw [List.any_eq_true] at hpred
    obtain ⟨e2, he2, hp⟩ := hpred
    simp only [Bool.and_eq_true, beq_iff_eq, activeCoursePred] at hp
    exact ⟨e2, he2, hp.1, hp.2.1, hp.2.2⟩
  · intro es ls qp al hq hal
    simp only [learner_get_queryset, List.mem_map] at hal
    obtain ⟨l, hl, rfl⟩ := hal
    replace hl := mem_of_ite_ite_filter _ _ _ _ _ _ hl
    rw [hq] at hl
    have hne : ((some "false" == some "true") = false) := by decide
    rw [hne] at hl
    simp only [Bool.false_eq_true, if_false] at hl
    simp only [if_pos (by rfl : ((some "false" == some "false") = true))] at hl
    rw [List.mem_filter] at hl
    obtain ⟨_, hpred⟩ := hl
    rw [List.any_eq_true] at hpred
    obtain ⟨e2, he2, hp⟩ := hpred
    simp only [Bool.and_eq_true, beq_iff_eq, inactiveCoursePred] at hp
    exact ⟨e2, he2, hp.1, hp.2.1, hp.2.2⟩

/-- Witness for C5 (amended): the partition applied at the boundary
enrollment and at a consent-denied enrollment. -/
theorem active_courses_partition_witness :
    (activeCoursePred 0 boundaryEnrollment = true ∨
      inactiveCoursePred 0 boundaryEnrollment = true) ∧
    (activeCoursePred 0 noConsentEnrollment = false ∧
      inactiveCoursePred 0 noConsentEnrollment = false) :=
  ⟨((active_courses_partition 0 boundaryEnrollment).2.1 0 (by decide) (by decide)).1,
   (active_courses_partition 0 noConsentEnrollment).1 (by decide)⟩

/-- C8 counterexample: `learner_activity` *present* with an empty value is
falsy in the source (`if learner_activity_param:`), so no activity filter is
applied and a passed enrollment survives, contradicting the claim for a
present `learner_activity` parameter. -/
theorem learner_activity_claim_counterexample :
    emptyActivityQP.learner_activity.isSome = true ∧
    apply_filters ⟨⟨2024, 1, 1⟩, 0⟩ emptyActivityQP [passedEnrollment] = [passedEnrollment] ∧
    passedEnrollment.has_passed = true := by
  decide

/-- C8 (amended): if `learner_activity` is present *with a non-empty value*,
every enrollment in the filtered result has `has_passed=false` and
`course_end_date >= now`; additionally value `active_past_week` keeps only
rows with `last_activity_date >= today - 7 days`, `inactive_past_week` only
rows with `last_activity_date <= today - 7 days`, and `inactive_past_month`
only rows with `last_activity_date <=` one calendar-correct month before
today (`subtract_one_month today`). -/
theorem learner_activity_filter_correct :
    ∀ (clock : Clock) (qp : QueryParams) (es : List Enrollment) (e : Enrollment),
      e ∈ apply_filters clock qp es →
      ∀ v : String, qp.learner_activity = some v → v ≠ "" →
        (e.has_passed = false ∧ endDateGe clock.now e = true) ∧
        (v = "active_past_week" → lastActivityGe (Date.predN 7 clock.today) e = true) ∧
        (v = "inactive_past_week" → lastActivityLe (Date.predN 7 clock.today) e = true) ∧
        (v = "inactive_past_month" →
          lastActivityLe (subtract_one_month clock.today) e = true) := by
  intro clock qp es e h v hv hne
  simp only [apply_filters] at h
  replace h := mem_of_ite_filter _ _ _ _ h
  replace h := mem_of_ite_filter _ _ _ _ h
  replace h := mem_of_ite_filter _ _ _ _ h
  replace h := mem_of_ite_filter _ _ _ _ h
  replace h := mem_of_ite_apply (truthy qp.offer_id = true)
    (fun ll => filter_by_offer_id ll (qp.offer_id.getD ""))
    (fun ll x hx => mem_filter_by_offer_id ll _ x hx) _ _ h
  replace h := mem_of_ite_filter _ _ _ _ h
  replace h := mem_of_ite_filter _ _ _ _ h
  replace h := mem_of_ite_filter _ _ _ _ h
  replace h := mem_of_ite_filter _ _ _ _ h
  rw [hv] at h
  have htr : truthy (some v) = true := truthy_some v hne
  by_cases hv1 : v = "active_past_week"
  · subst hv1
    simp only [if_pos (by rfl :
      ((some "active_past_week" == some "active_past_week") = true))] at h
    simp only [filter_active_learners] at h
    rw [List.mem_filter] at h
    obtain ⟨h, hact⟩ := h
    rw [if_pos htr] at h
    simp only [filter_active_enrollments] at h
    rw [List.mem_filter] at h
    obtain ⟨_, hae⟩ := h
    simp only [Bool.and_eq_true, Bool.not_eq_true'] at hae
    exact ⟨⟨hae.1, hae.2⟩, fun _ => hact,
      fun hq => absurd hq (by decide), fun hq => absurd hq (by decide)⟩
  · have c1 : ((some v == some "active_past_week") = false) := by simp [hv1]
    rw [c1] at h
    simp only [Bool.false_eq_true, if_false] at h
    by_cases hv2 : v = "inactive_past_week"
    · subst hv2
      simp only [if_pos (by rfl :
        ((some "inactive_past_week" == some "inactive_past_week") = true))] at h
      simp only [filter_inactive_learners] at h
      rw [List.mem_filter] at h
      obtain ⟨h, hact⟩ := h
      rw [if_pos htr] at h
      simp only [filter_active_enrollments] at h
      rw [List.mem_filter] at h
      obtain ⟨_, hae⟩ := h
      simp only [Bool.and_eq_true, Bool.not_eq_true'] at hae
      exact ⟨⟨hae.1, hae.2⟩, fun hq => absurd hq (by decide),
        fun _ => hact, fun hq => absurd hq (by decide)⟩
    · have c2 : ((some v == some "inactive_past_week") = false) := by simp [hv2]
      rw [c2] at h
      simp only [Bool.false_eq_true, if_false] at h
      by_cases hv3 : v = "inactive_past_month"
      · subst hv3
        simp only [if_pos (by rfl :
          ((some "inactive_past_month" == some "inactive_past_month") = true))] at h
        simp only [filter_inactive_learners] at h
        rw [List.mem_filter] at h
        obtain ⟨h, hact⟩ := h
        rw [if_pos htr] at h
        simp only [filter_active_enrollments] at h
        rw [List.mem_filter] at h
        obtain ⟨_, hae⟩ := h
        simp only [Bool.and_eq_true, Bool.not_eq_true'] at hae
        exact ⟨⟨hae.1, hae.2⟩, fun hq => absurd hq (by decide),
          fun hq => absurd hq (by decide), fun _ => hact⟩
      · have c3 : ((some v == some "inactive_past_month") = false) := by simp [hv3]
        rw [c3] at h
        simp only [Bool.false_eq_true, if_false] at h
        rw [if_pos htr] at h
        simp only [filter_active_enrollments] at h
        rw [List.mem_filter] at h
        obtain ⟨_, hae⟩ := h
        simp only [Bool.and_eq_true, Bool.not_eq_true'] at hae
        exact ⟨⟨hae.1, hae.2⟩, fun hq => absurd hq hv1,
          fun hq => absurd hq hv2, fun hq => absurd hq hv3⟩

/-- Witness for C8 (amended): the filter guarantees at a concrete request
with `learner_activity=active_past_week`. -/
theorem learner_activity_filter_correct_witness :
    (activeWeekEnrollment.has_passed = false ∧
      endDateGe witClock.now activeWeekEnrollment = true) ∧
    lastActivityGe (Date.predN 7 witClock.today) activeWeekEnrollment = true := by
  have h := learner_activity_filter_correct witClock activityQP [activeWeekEnrollment]
    activeWeekEnrollment (by decide) "active_past_week" (by decide) (by decide)
  exact ⟨h.1, h.2.1 rfl⟩

set_option maxRecDepth 4000 in
/-- C3 counterexample: the claim says a value that is not a version-4 UUID
is compared exactly as given, but `UUID(offer_id, version=4)` does not
validate the version — on the version-1 UUID string below it succeeds and
*overwrites the version nibble with 4*, so the code compares a value that
is neither the input nor its hyphen-stripped form, and matches a stored
offer the claim says it must not match. -/
theorem offer_id_claim_counterexample :
    uuidParseOk "123e4567-e89b-12d3-a456-426614174000" = true ∧
    isVersion4UuidString "123e4567-e89b-12d3-a456-426614174000" = false ∧
    normalize_offer_id "123e4567-e89b-12d3-a456-426614174000" =
      "123e4567e89b42d3a456426614174000" ∧
    normalize_offer_id_claim "123e4567-e89b-12d3-a456-426614174000" =
      "123e4567-e89b-12d3-a456-426614174000" ∧
    filter_by_offer_id [offerEnrollmentUuid] "123e4567-e89b-12d3-a456-426614174000" =
      [offerEnrollmentUuid] ∧
    filter_by_offer_id_claim [offerEnrollmentUuid] "123e4567-e89b-12d3-a456-426614174000" =
      [] := by
  decide

set_option maxRecDepth 4000 in
/-- C3 (amended): an offer-id value whose candidate (after removing
`urn:`/`uuid:` markers, stripping surrounding braces and removing all
hyphens) is exactly 32 characters and parses under the builtin
`int(_, 16)` rules (optional surrounding whitespace, optional sign,
optional `0x`/`0X` prefix, single underscores between digits) is
canonicalized to the 32 lowercase hyphen-free hex digits of its value
*with the version nibble forced to 4 and the variant bits forced to the
RFC 4122 pattern* before the equality comparison; any other value is
compared exactly as given.  For a value that is already a canonical
version-4 UUID the forcing is the identity, so the claim's two examples
hold: the hyphenated v4 UUID matches the stored hyphen-free offer, and
"42" matches the stored "42"; a 32-character `0x`-prefixed candidate is
also parsed and canonicalized rather than compared as given. -/
theorem offer_id_filter_spec :
    (∀ (qs : List Enrollment) (oid : String),
      (uuidParse oid = none →
        filter_by_offer_id qs oid = qs.filter (fun e => e.offer_id == some oid)) ∧
      (∀ n : Nat, uuidParse oid = some n →
        filter_by_offer_id qs oid =
          qs.filter (fun e => e.offer_id == some (toHex32 (forceVersion4 n))))) ∧
    normalize_offer_id "123e4567-e89b-42d3-a456-426614174000" =
      "123e4567e89b42d3a456426614174000" ∧
    isVersion4UuidString "123e4567-e89b-42d3-a456-426614174000" = true ∧
    normalize_offer_id_claim "123e4567-e89b-42d3-a456-426614174000" =
      "123e4567e89b42d3a456426614174000" ∧
    normalize_offer_id "42" = "42" ∧
    normalize_offer_id "0x123e4567e89b42d3a4564266141740" =
      "00123e4567e84b4293a4564266141740" ∧
    filter_by_offer_id [offerEnrollmentUuid] "123e4567-e89b-42d3-a456-426614174000" =
      [offerEnrollmentUuid] ∧
    filter_by_offer_id [offerEnrollment42] "42" = [offerEnrollment42] := by
  refine ⟨?_, by decide, by decide, by decide, by decide, by decide, by decide, by decide⟩
  intro qs oid
  constructor
  · intro hbad
    unfold filter_by_offer_id normalize_offer_id
    rw [hbad]
  · intro n hok
    unfold filter_by_offer_id normalize_offer_id
    rw [hok]

set_option maxRecDepth 4000 in
/-- Witness for C3 (amended): the two branches applied at concrete values. -/
theorem offer_id_filter_spec_witness :
    filter_by_offer_id [offerEnrollment42] "42" =
      [offerEnrollment42].filter (fun e => e.offer_id == some "42") ∧
    filter_by_offer_id [offerEnrollmentUuid] "123e4567-e89b-42d3-a456-426614174000" =
      [offerEnrollmentUuid].filter (fun e => e.offer_id ==
        some (toHex32 (forceVersion4 0x123e4567e89b42d3a456426614174000))) :=
  ⟨(offer_id_filter_spec.1 [offerEnrollment42] "42").1 (by decide),
   (offer_id_filter_spec.1 [offerEnrollmentUuid] "123e4567-e89b-42d3-a456-426614174000").2
     0x123e4567e89b42d3a456426614174000 (by decide)⟩

theorem get_set_hit (st : CacheState) (now : Int) (key : String × String)
    (value : List Enrollment) (timeout t2 : Int) (h : t2 < now + timeout) :
    get_cached_response (set_all_tiers st now key value timeout) t2 key = some value := by
  unfold get_cached_response set_all_tiers
  rw [List.find?_cons_of_pos _ (by simp)]
  show (if t2 < now + timeout then some value else none) = some value
  rw [if_pos h]

/-- C4: the enrollment-list queryset cache contract (key derivation is
spec-modelled: `get_cache_key` lives outside the embedded sources).
(1) A stored unexpired value under the key derived from
`('enterprise-learner', enterprise_id)` is returned as-is, without
recomputation and without touching the cache.
(2) Otherwise the consent-agnostic enterprise scope is filtered by the query
params and the result is stored under that key with
ttl `DEFAULT_LEARNER_CACHE_TIMEOUT = 600` seconds and returned.
(3) Keys for different resources or enterprises never collide.
(4) A second request for the same enterprise within the ttl window returns
the identical underlying filtered set, without recomputation. -/
theorem enrollment_queryset_cache_contract :
    (∀ (st : CacheState) (clock : Clock) (qp : QueryParams) (db : List Enrollment)
      (eid : String) (v : List Enrollment),
      get_cached_response st clock.now (get_cache_key "enterprise-learner" eid) = some v →
      enrollment_get_queryset st clock qp db eid = ⟨v, st, false⟩) ∧
    (∀ (st : CacheState) (clock : Clock) (qp : QueryParams) (db : List Enrollment)
      (eid : String),
      get_cached_response st clock.now (get_cache_key "enterprise-learner" eid) = none →
      enrollment_get_queryset st clock qp db eid =
        ⟨apply_filters clock qp (db.filter (fun e => e.enterprise_customer_uuid == eid)),
         set_all_tiers st clock.now (get_cache_key "enterprise-learner" eid)
           (apply_filters clock qp (db.filter (fun e => e.enterprise_customer_uuid == eid)))
           DEFAULT_LEARNER_CACHE_TIMEOUT,
         true⟩) ∧
    (∀ r e r2 e2 : String, get_cache_key r e = get_cache_key r2 e2 → r = r2 ∧ e = e2) ∧
    (∀ (st : CacheState) (clock : Clock) (qp : QueryParams) (db : List Enrollment)
      (eid : String),
      get_cached_response st clock.now (get_cache_key "enterprise-learner" eid) = none →
      ∀ (t2 : Int) (today2 : Date) (qp2 : QueryParams) (db2 : List Enrollment),
        t2 < clock.now + DEFAULT_LEARNER_CACHE_TIMEOUT →
        enrollment_get_queryset (enrollment_get_queryset st clock qp db eid).cache
            ⟨today2, t2⟩ qp2 db2 eid =
          ⟨(enrollment_get_queryset st clock qp db eid).value,
           (enrollment_get_queryset st clock qp db eid).cache, false⟩) := by
  refine ⟨?_, ?_, ?_, ?_⟩
  · intro st clock qp db eid v h
    simp only [enrollment_get_queryset, h]
  · intro st clock qp db eid h
    simp only [enrollment_get_queryset, h]
  · intro r e r2 e2 h
    exact ⟨congrArg Prod.fst h, congrArg Prod.snd h⟩
  · intro st clock qp db eid h t2 today2 qp2 db2 ht
    simp only [enrollment_get_queryset, h]
    rw [get_set_hit _ _ _ _ _ _ ht]

/-- Witness for C4: a cache miss on the empty cache computes, stores with
ttl 600 and returns the filtered set; key derivation is injective at
concrete keys. -/
theorem enrollment_queryset_cache_contract_witness :
    enrollment_get_queryset [] cacheClock emptyQueryParams [baseEnrollment] "ent-1" =
      ⟨apply_filters cacheClock emptyQueryParams
         ([baseEnrollment].filter (fun e => e.enterprise_customer_uuid == "ent-1")),
       set_all_tiers [] cacheClock.now (get_cache_key "enterprise-learner" "ent-1")
         (apply_filters cacheClock emptyQueryParams
           ([baseEnrollment].filter (fun e => e.enterprise_customer_uuid == "ent-1")))
         DEFAULT_LEARNER_CACHE_TIMEOUT,
       true⟩ ∧
    ("enterprise-learner" = "enterprise-learner" ∧ "ent-1" = "ent-1") :=
  ⟨enrollment_queryset_cache_contract.2.1 [] cacheClock emptyQueryParams [baseEnrollment]
     "ent-1" (by decide),
   enrollment_queryset_cache_contract.2.2.1 "enterprise-learner" "ent-1"
     "enterprise-learner" "ent-1" rfl⟩

theorem insights_status_iff (a : Option LearnerProgressRow) (b : Option SummarizeInsightsRow) :
    ((if a.isNone && b.isNone then HTTP_404_NOT_FOUND else HTTP_200_OK) = HTTP_404_NOT_FOUND ↔
      (a = none ∧ b = none)) ∧
    ((if a.isNone && b.isNone then HTTP_404_NOT_FOUND else HTTP_200_OK) = HTTP_200_OK ↔
      (a.isSome = true ∨ b.isSome = true)) ∧
    ((if a.isNone && b.isNone then HTTP_404_NOT_FOUND else HTTP_200_OK) = HTTP_200_OK ∨
     (if a.isNone && b.isNone then HTTP_404_NOT_FOUND else HTTP_200_OK) = HTTP_404_NOT_FOUND) := by
  cases a <;> cases b <;> simp [HTTP_200_OK, HTTP_404_NOT_FOUND]

/-- C6: the `learner_progress` key of the insights payload is present iff a
learner-progress snapshot row exists for the enterprise, the
`learner_engagement` key is present iff a learner-engagement snapshot row
exists (an individually absent row is recovered locally: the endpoint still
returns a payload, never an error), the status is 404 iff both rows are
absent, 200 iff at least one exists, and is always one of the two. -/
theorem insights_response_spec :
    ∀ (pr : List LearnerProgressRow) (er : List SummarizeInsightsRow) (eid : String),
      ((admin_insights_get pr er eid).learner_progress.isSome = true ↔
        ∃ r ∈ pr, r.enterprise_customer_uuid = eid) ∧
      ((admin_insights_get pr er eid).learner_engagement.isSome = true ↔
        ∃ r ∈ er, r.enterprise_customer_uuid = eid) ∧
      ((admin_insights_get pr er eid).status = HTTP_404_NOT_FOUND ↔
        ((admin_insights_get pr er eid).learner_progress = none ∧
         (admin_insights_get pr er eid).learner_engagement = none)) ∧
      ((admin_insights_get pr er eid).status = HTTP_200_OK ↔
        ((admin_insights_get pr er eid).learner_progress.isSome = true ∨
         (admin_insights_get pr er eid).learner_engagement.isSome = true)) ∧
      ((admin_insights_get pr er eid).status = HTTP_200_OK ∨
       (admin_insights_get pr er eid).status = HTTP_404_NOT_FOUND) := by
  intro pr er eid
  refine ⟨?_, ?_, ?_, ?_, ?_⟩
  · constructor
    · intro hs
      obtain ⟨x, hx, hp⟩ := List.find?_isSome.mp hs
      exact ⟨x, hx, beq_iff_eq.mp hp⟩
    · intro h
      obtain ⟨r, hr, he⟩ := h
      exact List.find?_isSome.mpr ⟨r, hr, beq_iff_eq.mpr he⟩
  · constructor
    · intro hs
      obtain ⟨x, hx, hp⟩ := List.find?_isSome.mp hs
      exact ⟨x, hx, beq_iff_eq.mp hp⟩
    · intro h
      obtain ⟨r, hr, he⟩ := h
      exact List.find?_isSome.mpr ⟨r, hr, beq_iff_eq.mpr he⟩
  · exact (insights_status_iff
      (pr.find? (fun r => r.enterprise_customer_uuid == eid))
      (er.find? (fun r => r.enterprise_customer_uuid == eid))).1
  · exact (insights_status_iff
      (pr.find? (fun r => r.enterprise_customer_uuid == eid))
      (er.find? (fun r => r.enterprise_customer_uuid == eid))).2.1
  · exact (insights_status_iff
      (pr.find? (fun r => r.enterprise_customer_uuid == eid))
      (er.find? (fun r => r.enterprise_customer_uuid == eid))).2.2

/-- C9: in the v0 API, when the consent-filtered enrollment set of an
enterprise is empty, both the enrollments list queryset and the overview
raise a logged not-found error whose message contains the enterprise id and
the request path, instead of returning an empty result (and a successful
queryset is never empty). -/
theorem v0_empty_enrollments_not_found :
    ∀ (db : List EnrollmentV0) (eid path : String) (today : Date),
      ((consent_granted_filter (db.filter (fun e => e.enterprise_id == eid))).isEmpty = true →
        v0_get_queryset db eid path =
          Except.error ⟨v0_not_found_message eid path, true⟩ ∧
        v0_overview db eid path today =
          Except.error ⟨v0_not_found_message eid path, true⟩ ∧
        ∃ s1 s2 s3 : String,
          v0_not_found_message eid path = s1 ++ (eid ++ (s2 ++ (path ++ s3)))) ∧
      (∀ l, v0_get_queryset db eid path = Except.ok l → l.isEmpty = false) := by
  intro db eid path today
  constructor
  · intro h
    have hq : v0_get_queryset db eid path =
        Except.error ⟨v0_not_found_message eid path, true⟩ := by
      simp only [v0_get_queryset]
      rw [if_pos h]
    refine ⟨hq, ?_, ?_⟩
    · unfold v0_overview
      rw [hq]
    · refine ⟨"No course enrollments are associated with Enterprise ",
        " from endpoint " ++ squote, squote ++ ".", ?_⟩
      simp [v0_not_found_message, String.append_assoc]
  · intro l hl
    simp only [v0_get_queryset] at hl
    by_cases hemp :
      (consent_granted_filter (db.filter (fun e => e.enterprise_id == eid))).isEmpty = true
    · rw [if_pos hemp] at hl
      exact Except.noConfusion hl
    · rw [if_neg hemp] at hl
      injection hl with h2
      rw [← h2]
      exact Bool.eq_false_iff.mpr hemp

/-- Witness for C9: the not-found error at a concrete empty enterprise. -/
theorem v0_empty_enrollments_not_found_witness :
    v0_get_queryset [] "ent-1" "/enterprise/ent-1/enrollments/" =
      Except.error ⟨v0_not_found_message "ent-1" "/enterprise/ent-1/enrollments/", true⟩ ∧
    (∃ s1 s2 s3 : String,
      v0_not_found_message "ent-1" "/enterprise/ent-1/enrollments/" =
        s1 ++ ("ent-1" ++ (s2 ++ ("/enterprise/ent-1/enrollments/" ++ s3)))) := by
  have h := (v0_empty_enrollments_not_found [] "ent-1" "/enterprise/ent-1/enrollments/"
    ⟨2024, 1, 1⟩).1 (by decide)
  exact ⟨h.1, h.2.2⟩
